import Mathlib

/-!
Verification development for the HomeBook tutoring-marketplace ledger and
lifecycle engine (src/app/api/v1/education.py and src/app/models/education.py).

The database is embedded shallowly as lists of rows; each endpoint or helper of
the source is translated to a pure function threading an explicit state.
Monetary amounts are integers (cents), points are integers, timestamps are
integer minutes.
-/

namespace HomeBook

/-- Row of the student wallet ledger (table wallet_ledger,
src/app/models/education.py lines 124-139). -/
structure WalletLedgerRow where
  studentId : Nat
  direction : String
  amountCents : Int
  pointsDelta : Int
  source : String
  referenceType : Option String
  referenceId : Option String
  note : Option String
  deriving Repr, DecidableEq

/-- Row of the teacher wallet ledger (table teacher_wallet_ledger,
src/app/models/education.py lines 142-156); same shape minus points_delta. -/
structure TeacherLedgerRow where
  teacherId : Nat
  direction : String
  amountCents : Int
  source : String
  referenceType : Option String
  referenceId : Option String
  note : Option String
  deriving Repr, DecidableEq

/-- Row of teacher_student_subscriptions (src/app/models/education.py 31-49). -/
structure Subscription where
  id : Nat
  teacherId : Nat
  studentId : Nat
  months : Int
  sessionsPerMonth : Int
  pointsCost : Int
  status : String
  startsAt : Int
  endsAt : Int
  deriving Repr, DecidableEq

/-- Row of payment_transactions (src/app/models/education.py 73-101). -/
structure Payment where
  id : Nat
  studentId : Nat
  teacherId : Nat
  subscriptionId : Option Nat
  months : Int
  sessionsPerMonth : Int
  amountCents : Int
  provider : String
  status : String
  checkoutToken : String
  providerOrderId : Option String
  providerCaptureId : Option String
  paidAt : Option Int
  teacherEarningsCents : Int
  platformFeeCents : Int
  deriving Repr, DecidableEq

/-- Row of teacher_withdrawal_requests (src/app/models/education.py 159-179). -/
structure Withdrawal where
  id : Nat
  teacherId : Nat
  amountCents : Int
  method : String
  paypalEmail : Option String
  status : String
  note : Option String
  adminNote : Option String
  externalRef : Option String
  processedAt : Option Int
  deriving Repr, DecidableEq

/-- The persistent store: one list per table plus the id sequences.
student_balances rows are (user_id, balance) pairs. -/
structure DBState where
  balances : List (Nat × Int)
  walletLedger : List WalletLedgerRow
  teacherLedger : List TeacherLedgerRow
  subscriptions : List Subscription
  payments : List Payment
  withdrawals : List Withdrawal
  nextSubId : Nat
  nextPaymentId : Nat
  nextWithdrawalId : Nat
  deriving Repr, DecidableEq

/-- Error outcomes of the endpoints (each corresponds to an HTTPException
raised in src/app/api/v1/education.py). -/
inductive ApiError where
  | notFound
  | forbidden
  | cannotSubscribeSelf
  | onlyStudentsSubscribe
  | insufficientBalance
  | invalidMethod
  | invalidAmount
  | insufficientFunds
  | invalidStatus
  | teacherOnlyCancel
  | onlyPendingCancellable
  | alreadyFinalized
  | paypalEmailMissing
  | paypalNotConfigured
  | providerError
  | paymentNotCompleted
  deriving Repr, DecidableEq

instance {ε α : Type} [DecidableEq ε] [DecidableEq α] : DecidableEq (Except ε α) :=
  fun a b =>
    match a, b with
    | .ok x, .ok y =>
      if h : x = y then .isTrue (by rw [h]) else .isFalse (by simp [h])
    | .error x, .error y =>
      if h : x = y then .isTrue (by rw [h]) else .isFalse (by simp [h])
    | .ok _, .error _ => .isFalse (by simp)
    | .error _, .ok _ => .isFalse (by simp)

/-- Python truthiness of an optional string: None and the empty string are
falsy (used by the idempotence guards and the external-ref checks). -/
def optTruthy : Option String → Bool
  | none => false
  | some s => s != ""

/-- Replace the first element satisfying p by its image under f; models an
in-place UPDATE of the row found by a query. -/
def updateFirst (p : α → Bool) (f : α → α) : List α → List α
  | [] => []
  | x :: xs => if p x then f x :: xs else x :: updateFirst p f xs

/-- The idempotency-key match on the student wallet ledger
(the WHERE clause of _record_wallet_ledger, education.py 215-227). -/
def wlKey (sid : Nat) (dir src : String) (rt ri : Option String) (r : WalletLedgerRow) : Bool :=
  r.studentId == sid && r.direction == dir && r.source == src &&
    r.referenceType == rt && r.referenceId == ri

/-- The idempotency-key match on the teacher wallet ledger
(the WHERE clause of _record_teacher_wallet_ledger, education.py 257-269). -/
def tlKey (tid : Nat) (dir src : String) (rt ri : Option String) (r : TeacherLedgerRow) : Bool :=
  r.teacherId == tid && r.direction == dir && r.source == src &&
    r.referenceType == rt && r.referenceId == ri

/-- Constructor of a student wallet ledger row. -/
def mkWalletRow (sid : Nat) (dir : String) (a pd : Int) (src : String)
    (rt ri n : Option String) : WalletLedgerRow :=
  { studentId := sid, direction := dir, amountCents := a, pointsDelta := pd,
    source := src, referenceType := rt, referenceId := ri, note := n }

/-- Constructor of a teacher wallet ledger row. -/
def mkTeacherRow (tid : Nat) (dir : String) (a : Int) (src : String)
    (rt ri n : Option String) : TeacherLedgerRow :=
  { teacherId := tid, direction := dir, amountCents := a,
    source := src, referenceType := rt, referenceId := ri, note := n }

/-- _record_wallet_ledger (education.py 201-242), at the level of the ledger
list: when both reference fields are truthy, an existing row with the same
(subject, direction, source, reference_type, reference_id) key is returned
unchanged; otherwise a new row is appended (amount clamped at 0). -/
def recordWalletLedgerRows (rows : List WalletLedgerRow) (sid : Nat) (dir : String)
    (amountCents pointsDelta : Int) (src : String) (rt ri note : Option String) :
    WalletLedgerRow × List WalletLedgerRow :=
  let fresh : WalletLedgerRow := mkWalletRow sid dir (max amountCents 0) pointsDelta src rt ri note
  if optTruthy rt && optTruthy ri then
    match rows.find? (wlKey sid dir src rt ri) with
    | some existing => (existing, rows)
    | none => (fresh, rows ++ [fresh])
  else
    (fresh, rows ++ [fresh])

/-- _record_teacher_wallet_ledger (education.py 245-283), list level. -/
def recordTeacherLedgerRows (rows : List TeacherLedgerRow) (tid : Nat) (dir : String)
    (amountCents : Int) (src : String) (rt ri note : Option String) :
    TeacherLedgerRow × List TeacherLedgerRow :=
  let fresh : TeacherLedgerRow := mkTeacherRow tid dir (max amountCents 0) src rt ri note
  if optTruthy rt && optTruthy ri then
    match rows.find? (tlKey tid dir src rt ri) with
    | some existing => (existing, rows)
    | none => (fresh, rows ++ [fresh])
  else
    (fresh, rows ++ [fresh])

/-- A sequence of _record_wallet_ledger calls sharing one idempotency key;
each call may carry its own amount, points delta and note. -/
def recordWalletLedgerSeq (rows : List WalletLedgerRow) (sid : Nat) (dir src : String)
    (rt ri : Option String) (calls : List (Int × Int × Option String)) :
    List WalletLedgerRow :=
  calls.foldl (fun acc c => (recordWalletLedgerRows acc sid dir c.1 c.2.1 src rt ri c.2.2).2)
    rows

/-- A sequence of _record_teacher_wallet_ledger calls sharing one key. -/
def recordTeacherLedgerSeq (rows : List TeacherLedgerRow) (tid : Nat) (dir src : String)
    (rt ri : Option String) (calls : List (Int × Option String)) :
    List TeacherLedgerRow :=
  calls.foldl (fun acc c => (recordTeacherLedgerRows acc tid dir c.1 src rt ri c.2).2) rows

/-- Signed contribution of one teacher-ledger row to a teacher's balance:
credits count positively, any other direction negatively
(the CASE expression of _teacher_wallet_net_cents, education.py 286-299). -/
def teacherNetRow (tid : Nat) (r : TeacherLedgerRow) : Int :=
  if r.teacherId == tid then
    (if r.direction == "credit" then r.amountCents else -r.amountCents)
  else 0

/-- _teacher_wallet_net_cents (education.py 286-299): sum of credit amounts
minus sum of debit amounts over the teacher's ledger rows. -/
def teacherWalletNetCents (rows : List TeacherLedgerRow) (tid : Nat) : Int :=
  (rows.map (teacherNetRow tid)).sum

/-- _calc_points_cost (education.py 127-128). -/
def calcPointsCost (months sessionsPerMonth : Int) : Int :=
  months * sessionsPerMonth * 5

/-- _calc_teacher_earnings_cents (education.py 131-135): the source computes
earnings as int(round(amount_cents * 0.7)) with bankers rounding and
fee as max(amount_cents - earnings, 0).  Modelled as the exact
round-half-to-even of 7 * amount / 10 (the two agree on all
claim-relevant inputs, in particular 12000). -/
def calcTeacherEarningsCents (amountCents : Int) : Int × Int :=
  let n : Int := 7 * amountCents
  let q : Int := Int.ediv n 10
  let r : Int := Int.emod n 10
  let earnings : Int :=
    if r < 5 then q
    else if 5 < r then q + 1
    else if Int.emod q 2 = 0 then q else q + 1
  (earnings, max (amountCents - earnings) 0)

/-- _refresh_live_status (education.py 707-719): recompute a session status
from wall-clock time; duration 0 falls back to 60 (Python or-default) and is
clamped to at least 1; ten minutes of pre-open window. -/
def refreshLiveStatus (kind status : String) (startsAt durationMinutes now : Int) : String :=
  if kind != "live" then status
  else
    let d := max (if durationMinutes = 0 then 60 else durationMinutes) 1
    let endsAt := startsAt + d
    if endsAt ≤ now then "ended"
    else if startsAt ≤ now + 10 then "live"
    else "scheduled"

/-- Initial status chosen at session creation (education.py 1461-1468). -/
def initialSessionStatus (kind : String) (startsAt durationMinutes now : Int) : String :=
  if kind = "live" then
    let d := max (if durationMinutes = 0 then 60 else durationMinutes) 1
    let endsAt := startsAt + d
    if endsAt ≤ now then "ended"
    else if startsAt ≤ now + 10 then "live"
    else "scheduled"
  else "scheduled"

/-- _ensure_student_balance (education.py 558-565): lazily create the balance
row with the 500-point default grant. -/
def ensureStudentBalance (s : DBState) (sid : Nat) : Int × DBState :=
  match s.balances.find? (fun b => b.1 == sid) with
  | some b => (b.2, s)
  | none => (500, { s with balances := s.balances ++ [(sid, 500)] })

/-- Overwrite the (first) balance row of a student. -/
def setStudentBalance (s : DBState) (sid : Nat) (v : Int) : DBState :=
  { s with balances := updateFirst (fun b => b.1 == sid) (fun b => (b.1, v)) s.balances }

/-- Current balance of a student, if a row exists. -/
def findBalance (s : DBState) (sid : Nat) : Option Int :=
  (s.balances.find? (fun b => b.1 == sid)).map (fun b => b.2)

/-- The WHERE clause of _active_subscription: the row is the pair's and
has status active. -/
def activeFor (tid sid : Nat) (x : Subscription) : Bool :=
  x.teacherId == tid && x.studentId == sid && x.status == "active"

/-- _active_subscription (education.py 671-687). -/
def activeSubscription (s : DBState) (tid sid : Nat) : Option Subscription :=
  s.subscriptions.find? (activeFor tid sid)

/-- State-level _record_wallet_ledger. -/
def recordWalletLedger (s : DBState) (sid : Nat) (dir : String)
    (amountCents pointsDelta : Int) (src : String) (rt ri note : Option String) :
    WalletLedgerRow × DBState :=
  let r := recordWalletLedgerRows s.walletLedger sid dir amountCents pointsDelta src rt ri note
  (r.1, { s with walletLedger := r.2 })

/-- State-level _record_teacher_wallet_ledger. -/
def recordTeacherLedger (s : DBState) (tid : Nat) (dir : String)
    (amountCents : Int) (src : String) (rt ri note : Option String) :
    TeacherLedgerRow × DBState :=
  let r := recordTeacherLedgerRows s.teacherLedger tid dir amountCents src rt ri note
  (r.1, { s with teacherLedger := r.2 })

/-- Thirty days expressed in the minute time unit of the model. -/
def minutesPerDay : Int := 1440

/-- Constructor of an active subscription row as inserted by
_create_subscription. -/
def mkSubRow (id t st : Nat) (m spm cost startsAt endsAt : Int) : Subscription :=
  { id := id, teacherId := t, studentId := st, months := m, sessionsPerMonth := spm,
    pointsCost := cost, status := "active", startsAt := startsAt, endsAt := endsAt }

/-- _create_subscription (education.py 791-841): return the existing active
subscription unchanged if there is one; otherwise optionally charge the
points balance (guarded by a pre-check) and insert the subscription plus,
on the charged path, one points_subscription debit ledger row. -/
def createSubscription (s : DBState) (teacherId studentId : Nat)
    (months sessionsPerMonth : Int) (chargeBalance : Bool) (now : Int) :
    Except ApiError Subscription × DBState :=
  match activeSubscription s teacherId studentId with
  | some existing => (.ok existing, s)
  | none =>
    let cost := calcPointsCost months sessionsPerMonth
    let addSub : DBState → Subscription × DBState := fun st =>
      let sub : Subscription := mkSubRow st.nextSubId teacherId studentId months
        sessionsPerMonth cost now (now + 30 * months * minutesPerDay)
      (sub, { st with subscriptions := st.subscriptions ++ [sub],
                      nextSubId := st.nextSubId + 1 })
    if chargeBalance then
      let br := ensureStudentBalance s studentId
      if br.1 < cost then (.error .insufficientBalance, br.2)
      else
        let charged := setStudentBalance br.2 studentId (br.1 - cost)
        let created := addSub charged
        let ledgered := (recordWalletLedger created.2 studentId "debit" (cost * 100) (-cost)
          "points_subscription" (some "subscription") (some (toString created.1.id))
          (some ("Subscription points debit (" ++ toString cost ++ " pts)"))).2
        (.ok created.1, ledgered)
    else
      let created := addSub s
      (.ok created.1, created.2)

/-- _credit_teacher_wallet_from_payment (education.py 331-349): credit the
teacher ledger with the earnings of a payment, idempotency-keyed on
(payment_transaction, payment id); no-op when earnings are not positive. -/
def creditTeacherWalletFromPayment (s : DBState) (payment : Payment) : DBState :=
  let earnings := max payment.teacherEarningsCents 0
  if earnings ≤ 0 then s
  else
    (recordTeacherLedger s payment.teacherId "credit" earnings "course_payment"
      (some "payment_transaction") (some (toString payment.id))
      (some "Teacher earning from student payment")).2

/-- The paid wallet_points PaymentTransaction row inserted by
_record_points_subscription_payment; the checkout token models the uuid. -/
def mkPointsPayment (pid t st : Nat) (sub : Subscription) (now : Int) : Payment :=
  { id := pid, studentId := st, teacherId := t, subscriptionId := some sub.id,
    months := sub.months, sessionsPerMonth := sub.sessionsPerMonth,
    amountCents := max sub.pointsCost 0 * 100, provider := "wallet_points",
    status := "paid", checkoutToken := "wallet_points_" ++ toString pid,
    providerOrderId := none, providerCaptureId := none, paidAt := some now,
    teacherEarningsCents := (calcTeacherEarningsCents (max sub.pointsCost 0 * 100)).1,
    platformFeeCents := (calcTeacherEarningsCents (max sub.pointsCost 0 * 100)).2 }

/-- The lookup key of _record_points_subscription_payment: the paid
wallet_points transaction of a subscription. -/
def pointsPaymentFor (subId : Nat) (p : Payment) : Bool :=
  p.subscriptionId == some subId && p.provider == "wallet_points" && p.status == "paid"

/-- _record_points_subscription_payment (education.py 844-892): record the
already-paid wallet_points PaymentTransaction for a points-charged
subscription, at most once per subscription, and credit the teacher wallet. -/
def recordPointsSubscriptionPayment (s : DBState) (teacherId studentId : Nat)
    (sub : Subscription) (now : Int) : Payment × DBState :=
  match s.payments.find? (pointsPaymentFor sub.id) with
  | some existing => (existing, s)
  | none =>
    let row : Payment := mkPointsPayment s.nextPaymentId teacherId studentId sub now
    let s1 := { s with payments := s.payments ++ [row], nextPaymentId := s.nextPaymentId + 1 }
    (row, creditTeacherWalletFromPayment s1 row)

/-- subscribe_teacher (education.py 964-995): the points (charge-balance)
subscribe endpoint.  actorIsStudentOrAdmin abstracts the role check. -/
def subscribeTeacher (s : DBState) (teacherId studentId : Nat)
    (actorIsStudentOrAdmin : Bool) (months sessionsPerMonth now : Int) :
    Except ApiError Subscription × DBState :=
  if studentId == teacherId then (.error .cannotSubscribeSelf, s)
  else if !actorIsStudentOrAdmin then (.error .onlyStudentsSubscribe, s)
  else
    match activeSubscription s teacherId studentId with
    | some existing => (.ok existing, s)
    | none =>
      match createSubscription s teacherId studentId months sessionsPerMonth true now with
      | (.error e, s1) => (.error e, s1)
      | (.ok sub, s1) =>
        (.ok sub, (recordPointsSubscriptionPayment s1 teacherId studentId sub now).2)

/-- Phase one of confirm_subscription_checkout (education.py 1984-2016):
verify with the provider when the row is still pending and drive it to paid
stamping paid_at and the 70/30 split, or backfill a missing split on an
already-paid row; the Bool records whether the row transitioned now. -/
def confirmPhase1 (row : Payment) (providerPaid : Bool) (captureId : Option String)
    (now : Int) : Except ApiError (Payment × Bool) :=
  if row.status != "paid" then
    if (row.provider == "stripe" || row.provider == "paypal") && !providerPaid then
      .error .paymentNotCompleted
    else
      let row0 :=
        if row.provider == "paypal" then
          { row with
            providerOrderId := some (row.providerOrderId.getD row.checkoutToken),
            providerCaptureId :=
              (match captureId with
               | some c => if c = "" then row.providerCaptureId else some c
               | none => row.providerCaptureId) }
        else row
      let split := calcTeacherEarningsCents row.amountCents
      .ok ({ row0 with
             status := "paid"
             paidAt := some now
             teacherEarningsCents := split.1
             platformFeeCents := split.2 }, true)
  else if 0 < row.amountCents ∧ row.teacherEarningsCents = 0 ∧ row.platformFeeCents = 0 then
    let split := calcTeacherEarningsCents row.amountCents
    .ok ({ row with teacherEarningsCents := split.1, platformFeeCents := split.2 }, false)
  else .ok (row, false)

/-- confirm_subscription_checkout (education.py 1967-2049).
actorAuthorized abstracts the paying-student-or-admin check, providerPaid the
completion answer of the external stripe/paypal confirm call and captureId the
capture id reported by paypal.  Drives pending to paid at most once, credits
the teacher wallet (idempotency-keyed), ensures the subscription without
charging points, links it, and records the audit student-wallet debit. -/
def confirmSubscriptionCheckout (s : DBState) (token : String)
    (actorAuthorized providerPaid : Bool) (captureId : Option String) (now : Int) :
    Except ApiError Subscription × DBState :=
  match s.payments.find? (fun p => p.checkoutToken == token) with
  | none => (.error .notFound, s)
  | some row =>
    if !actorAuthorized then (.error .forbidden, s)
    else
      match confirmPhase1 row providerPaid captureId now with
      | .error e => (.error e, s)
      | .ok (row1, transitioned) =>
        let pay1 := updateFirst (fun p => p.checkoutToken == token) (fun _ => row1) s.payments
        let s1 := { s with payments := pay1 }
        let s2 := if row1.status == "paid" then creditTeacherWalletFromPayment s1 row1 else s1
        match createSubscription s2 row.teacherId row.studentId row.months
            row.sessionsPerMonth false now with
        | (.error e, s3) => (.error e, s3)
        | (.ok sub, s3) =>
          let row2 := { row1 with subscriptionId := some sub.id }
          let pay2 := updateFirst (fun p => p.checkoutToken == token) (fun _ => row2) s3.payments
          let s4 := { s3 with payments := pay2 }
          let s5 :=
            if transitioned || row1.status == "paid" then
              (recordWalletLedger s4 row.studentId "debit" (max row.amountCents 0) 0
                "subscription_checkout" (some "payment_transaction")
                (some (toString row1.id)) (some "Checkout payment to teacher")).2
            else s4
          (.ok sub, s5)

/-- One iteration of _sync_teacher_wallet_from_paid_transactions
(education.py 352-379): backfill a missing 70/30 split on a paid transaction
and replay the idempotent teacher-wallet credit. -/
def syncStep (s : DBState) (pid : Nat) : DBState :=
  match s.payments.find? (fun p => p.id == pid) with
  | none => s
  | some p =>
    let p1 :=
      if p.teacherEarningsCents ≤ 0 ∧ 0 < p.amountCents then
        let split := calcTeacherEarningsCents p.amountCents
        { p with teacherEarningsCents := split.1, platformFeeCents := split.2 }
      else p
    let s1 := { s with payments := updateFirst (fun q => q.id == pid) (fun _ => p1) s.payments }
    creditTeacherWalletFromPayment s1 p1

/-- _sync_teacher_wallet_from_paid_transactions (education.py 352-379). -/
def syncTeacherWalletFromPaidTransactions (s : DBState) (tid : Nat) : DBState :=
  let ids := (s.payments.filter (fun p => p.teacherId == tid && p.status == "paid")).map
    (fun p => p.id)
  ids.foldl syncStep s

/-- _WITHDRAW_ALLOWED_METHODS (education.py 85). -/
def withdrawAllowedMethods : List String := ["paypal", "manual", "bank"]

/-- _WITHDRAW_ALLOWED_STATUSES (education.py 84). -/
def withdrawAllowedStatuses : List String :=
  ["pending", "processing", "paid", "rejected", "cancelled"]

/-- Constructor of a pending withdrawal request row as inserted by
create_teacher_withdrawal. -/
def mkWithdrawalReq (id tid : Nat) (a : Int) (meth : String)
    (em note : Option String) : Withdrawal :=
  { id := id, teacherId := tid, amountCents := a, method := meth, paypalEmail := em,
    status := "pending", note := note, adminNote := none, externalRef := none,
    processedAt := none }

/-- create_teacher_withdrawal (education.py 1212-1261): sync the wallet,
validate, check the ledger-derived availability, insert the pending request
and write the withdraw_request_hold debit referencing it. -/
def createTeacherWithdrawal (s : DBState) (tid : Nat) (amountCents : Int)
    (method : String) (paypalEmail note : Option String) :
    Except ApiError Withdrawal × DBState :=
  let s1 := syncTeacherWalletFromPaidTransactions s tid
  if !(withdrawAllowedMethods.contains method) then (.error .invalidMethod, s1)
  else
    let available := teacherWalletNetCents s1.teacherLedger tid
    if amountCents ≤ 0 then (.error .invalidAmount, s1)
    else if available < amountCents then (.error .insufficientFunds, s1)
    else
      let req : Withdrawal :=
        mkWithdrawalReq s1.nextWithdrawalId tid amountCents method paypalEmail note
      let s2 := { s1 with withdrawals := s1.withdrawals ++ [req],
                          nextWithdrawalId := s1.nextWithdrawalId + 1 }
      let s3 := (recordTeacherLedger s2 tid "debit" amountCents "withdraw_request_hold"
        (some "withdrawal_request") (some (toString req.id))
        (some ("Withdrawal request " ++ toString req.id ++ " hold"))).2
      (.ok req, s3)

/-- update_teacher_withdrawal (education.py 1284-1379).  actorIsAdmin
abstracts the role check (a non-admin caller is the owning teacher);
paypalConfigured, payoutOk and payoutRef abstract the PayPal payout call.
Terminal requests reject any status change; a rejected or cancelled
transition from pending or processing appends the reversing credit. -/
def updateTeacherWithdrawal (s : DBState) (tid wid : Nat) (actorIsAdmin : Bool)
    (newStatus : String) (adminNote externalRef : Option String)
    (paypalConfigured payoutOk : Bool) (payoutRef : String) (now : Int) :
    Except ApiError Withdrawal × DBState :=
  match s.withdrawals.find? (fun w => w.id == wid && w.teacherId == tid) with
  | none => (.error .notFound, s)
  | some row =>
    if !(withdrawAllowedStatuses.contains newStatus) then (.error .invalidStatus, s)
    else if !actorIsAdmin && newStatus != "cancelled" then (.error .teacherOnlyCancel, s)
    else if !actorIsAdmin && row.status != "pending" then (.error .onlyPendingCancellable, s)
    else if (row.status == "paid" || row.status == "rejected" || row.status == "cancelled")
        && newStatus != row.status then
      (.error .alreadyFinalized, s)
    else
      let row1 :=
        if actorIsAdmin then
          { row with
            adminNote :=
              (match adminNote with
               | some a => if a = "" then row.adminNote else some a
               | none => row.adminNote),
            externalRef :=
              (match externalRef with
               | some e => if e = "" then row.externalRef else some e
               | none => row.externalRef) }
        else row
      let payoutStep : Except ApiError Withdrawal :=
        if newStatus == "paid" && (row1.status == "pending" || row1.status == "processing")
            && row1.method == "paypal" && !(optTruthy row1.externalRef) then
          if !(optTruthy row1.paypalEmail) then .error .paypalEmailMissing
          else if !paypalConfigured then .error .paypalNotConfigured
          else if !payoutOk then .error .providerError
          else .ok { row1 with
            externalRef := if payoutRef = "" then row1.externalRef else some payoutRef,
            adminNote :=
              (match row1.adminNote with
               | none => some "PayPal payout status"
               | some a => some a) }
        else .ok row1
      match payoutStep with
      | .error e => (.error e, s)
      | .ok row2 =>
        let s1 :=
          if (newStatus == "rejected" || newStatus == "cancelled")
              && (row.status == "pending" || row.status == "processing") then
            (recordTeacherLedger s tid "credit" row.amountCents "withdraw_request_reversal"
              (some "withdrawal_request_reversal") (some (toString row.id))
              (some ("Withdrawal " ++ toString row.id ++ " reversed"))).2
          else s
        let terminal := newStatus == "paid" || newStatus == "rejected" ||
          newStatus == "cancelled"
        let row3 := { row2 with
                      status := newStatus
                      processedAt := if terminal then some now else none }
        let wd1 := updateFirst (fun w => w.id == wid && w.teacherId == tid) (fun _ => row3)
          s1.withdrawals
        (.ok row3, { s1 with withdrawals := wd1 })

/-- The operations of the engine considered for reachability. -/
inductive EngineOp where
  | subscribe (teacherId studentId : Nat) (actorIsStudentOrAdmin : Bool)
      (months sessionsPerMonth now : Int)
  | confirm (token : String) (actorAuthorized providerPaid : Bool)
      (captureId : Option String) (now : Int)
  | withdrawCreate (tid : Nat) (amountCents : Int) (method : String)
      (paypalEmail note : Option String)
  | withdrawUpdate (tid wid : Nat) (actorIsAdmin : Bool) (newStatus : String)
      (adminNote externalRef : Option String) (paypalConfigured payoutOk : Bool)
      (payoutRef : String) (now : Int)

/-- Resulting state of one engine operation (error results leave the
committed portion of the state). -/
def applyOp (s : DBState) : EngineOp → DBState
  | .subscribe t st a m spm now => (subscribeTeacher s t st a m spm now).2
  | .confirm tok auth pp cap now => (confirmSubscriptionCheckout s tok auth pp cap now).2
  | .withdrawCreate t a m e n => (createTeacherWithdrawal s t a m e n).2
  | .withdrawUpdate t w adm ns an er pc ok ref now =>
      (updateTeacherWithdrawal s t w adm ns an er pc ok ref now).2

/-- The empty store. -/
def initState : DBState :=
  { balances := [], walletLedger := [], teacherLedger := [], subscriptions := [],
    payments := [], withdrawals := [], nextSubId := 0, nextPaymentId := 0,
    nextWithdrawalId := 0 }

/-- States reachable from the empty store by engine operations. -/
inductive Reachable : DBState → Prop where
  | init : Reachable initState
  | step (s : DBState) (op : EngineOp) : Reachable s → Reachable (applyOp s op)

/-- At most one active subscription row per (teacher, student) pair. -/
def ActiveUnique (s : DBState) : Prop :=
  ∀ tid sid : Nat, s.subscriptions.countP (activeFor tid sid) ≤ 1

/-- Every teacher's ledger-derived net balance is nonnegative. -/
def TeacherNetNonneg (s : DBState) : Prop :=
  ∀ tid : Nat, 0 ≤ teacherWalletNetCents s.teacherLedger tid

/-- Example store used in concrete checks: one teacher-ledger credit of 5000
cents for teacher 1 and nothing else. -/
def exampleTeacherState : DBState :=
  { initState with
    teacherLedger := [mkTeacherRow 1 "credit" 5000 "course_payment"
      (some "payment_transaction") (some "1") none] }

/-- Example pending stripe checkout transaction used in concrete checks. -/
def confirmDemoPayment : Payment :=
  { id := 7, studentId := 2, teacherId := 1, subscriptionId := none,
    months := 1, sessionsPerMonth := 2, amountCents := 12000, provider := "stripe",
    status := "pending", checkoutToken := "tok1", providerOrderId := none,
    providerCaptureId := none, paidAt := none, teacherEarningsCents := 0,
    platformFeeCents := 0 }

/-- Example store holding one pending checkout transaction. -/
def confirmDemoState : DBState :=
  { initState with payments := [confirmDemoPayment] }

/-- Example withdrawal request already paid out, used in concrete checks. -/
def withdrawDemoRow : Withdrawal :=
  { id := 0, teacherId := 1, amountCents := 5000, method := "manual",
    paypalEmail := none, status := "paid", note := none, adminNote := none,
    externalRef := none, processedAt := some 0 }

/-- Example store holding one paid withdrawal request. -/
def withdrawDemoState : DBState :=
  { initState with withdrawals := [withdrawDemoRow], nextWithdrawalId := 1 }

/-- Example pending withdrawal request, used in concrete checks. -/
def withdrawPendingRow : Withdrawal :=
  { id := 0, teacherId := 1, amountCents := 5000, method := "manual",
    paypalEmail := none, status := "pending", note := none, adminNote := none,
    externalRef := none, processedAt := none }

/-- Example store holding one pending withdrawal request. -/
def withdrawPendingState : DBState :=
  { initState with withdrawals := [withdrawPendingRow], nextWithdrawalId := 1 }

/-! ### Lemmas about the ledger record primitives -/

theorem optTruthy_pair_true {rt ri : String} (hrt : rt ≠ "") (hri : ri ≠ "") :
    (optTruthy (some rt) && optTruthy (some ri)) = true := by
  simp [optTruthy, Bool.and_eq_true, bne_iff_ne]
  exact ⟨hrt, hri⟩

theorem wlKey_self (sid : Nat) (dir src : String) (rt ri n : Option String) (a pd : Int) :
    wlKey sid dir src rt ri (mkWalletRow sid dir a pd src rt ri n) = true := by
  simp [wlKey, mkWalletRow]

theorem tlKey_self (tid : Nat) (dir src : String) (rt ri n : Option String) (a : Int) :
    tlKey tid dir src rt ri (mkTeacherRow tid dir a src rt ri n) = true := by
  simp [tlKey, mkTeacherRow]

theorem recordWallet_of_some {rows : List WalletLedgerRow} {sid : Nat} {dir src : String}
    {rt ri n : Option String} {a pd : Int} {e : WalletLedgerRow}
    (ht : (optTruthy rt && optTruthy ri) = true)
    (hf : rows.find? (wlKey sid dir src rt ri) = some e) :
    recordWalletLedgerRows rows sid dir a pd src rt ri n = (e, rows) := by
  simp [recordWalletLedgerRows, ht, hf]

theorem recordWallet_of_none {rows : List WalletLedgerRow} {sid : Nat} {dir src : String}
    {rt ri n : Option String} {a pd : Int}
    (ht : (optTruthy rt && optTruthy ri) = true)
    (hf : rows.find? (wlKey sid dir src rt ri) = none) :
    recordWalletLedgerRows rows sid dir a pd src rt ri n =
      (mkWalletRow sid dir (max a 0) pd src rt ri n,
       rows ++ [mkWalletRow sid dir (max a 0) pd src rt ri n]) := by
  simp [recordWalletLedgerRows, ht, hf]

theorem recordTeacher_of_some {rows : List TeacherLedgerRow} {tid : Nat} {dir src : String}
    {rt ri n : Option String} {a : Int} {e : TeacherLedgerRow}
    (ht : (optTruthy rt && optTruthy ri) = true)
    (hf : rows.find? (tlKey tid dir src rt ri) = some e) :
    recordTeacherLedgerRows rows tid dir a src rt ri n = (e, rows) := by
  simp [recordTeacherLedgerRows, ht, hf]

theorem recordTeacher_of_none {rows : List TeacherLedgerRow} {tid : Nat} {dir src : String}
    {rt ri n : Option String} {a : Int}
    (ht : (optTruthy rt && optTruthy ri) = true)
    (hf : rows.find? (tlKey tid dir src rt ri) = none) :
    recordTeacherLedgerRows rows tid dir a src rt ri n =
      (mkTeacherRow tid dir (max a 0) src rt ri n,
       rows ++ [mkTeacherRow tid dir (max a 0) src rt ri n]) := by
  simp [recordTeacherLedgerRows, ht, hf]

theorem find?_of_countP_zero {l : List α} {p : α → Bool}
    (h : l.countP p = 0) : l.find? p = none := by
  rw [List.find?_eq_none]
  intro x hx
  exact (List.countP_eq_zero.mp h) x hx

theorem find?_isSome_of_countP_ne_zero {l : List α} {p : α → Bool}
    (h : l.countP p ≠ 0) : (l.find? p).isSome := by
  rw [List.find?_isSome]
  by_contra hc
  push_neg at hc
  exact h (List.countP_eq_zero.mpr fun a ha => by simpa using hc a ha)

theorem recordWallet_hit_noop {rows : List WalletLedgerRow} {sid : Nat} {dir src : String}
    {rt ri n : Option String} {a pd : Int}
    (ht : (optTruthy rt && optTruthy ri) = true)
    (hc : rows.countP (wlKey sid dir src rt ri) ≠ 0) :
    (recordWalletLedgerRows rows sid dir a pd src rt ri n).2 = rows := by
  obtain ⟨e, hf⟩ := Option.isSome_iff_exists.mp (find?_isSome_of_countP_ne_zero hc)
  rw [recordWallet_of_some ht hf]

theorem recordTeacher_hit_noop {rows : List TeacherLedgerRow} {tid : Nat} {dir src : String}
    {rt ri n : Option String} {a : Int}
    (ht : (optTruthy rt && optTruthy ri) = true)
    (hc : rows.countP (tlKey tid dir src rt ri) ≠ 0) :
    (recordTeacherLedgerRows rows tid dir a src rt ri n).2 = rows := by
  obtain ⟨e, hf⟩ := Option.isSome_iff_exists.mp (find?_isSome_of_countP_ne_zero hc)
  rw [recordTeacher_of_some ht hf]

theorem recordWalletSeq_noop {sid : Nat} {dir src : String} {rt ri : Option String}
    (ht : (optTruthy rt && optTruthy ri) = true) :
    ∀ (calls : List (Int × Int × Option String)) (rows : List WalletLedgerRow),
      rows.countP (wlKey sid dir src rt ri) ≠ 0 →
      recordWalletLedgerSeq rows sid dir src rt ri calls = rows
  | [], rows, _ => rfl
  | c :: cs, rows, hc => by
    unfold recordWalletLedgerSeq
    simp only [List.foldl_cons]
    rw [recordWallet_hit_noop ht hc]
    exact recordWalletSeq_noop ht cs rows hc

theorem recordTeacherSeq_noop {tid : Nat} {dir src : String} {rt ri : Option String}
    (ht : (optTruthy rt && optTruthy ri) = true) :
    ∀ (calls : List (Int × Option String)) (rows : List TeacherLedgerRow),
      rows.countP (tlKey tid dir src rt ri) ≠ 0 →
      recordTeacherLedgerSeq rows tid dir src rt ri calls = rows
  | [], rows, _ => rfl
  | c :: cs, rows, hc => by
    unfold recordTeacherLedgerSeq
    simp only [List.foldl_cons]
    rw [recordTeacher_hit_noop ht hc]
    exact recordTeacherSeq_noop ht cs rows hc

/-- C1.  For both ledger kinds and every sequence of record-entry calls
sharing one idempotency key (both reference fields supplied non-empty):
a replayed call returns the first call's row and leaves the ledger unchanged,
and starting from a ledger with no row for the key, any non-empty call
sequence creates exactly one matching row and exactly one row in total. -/
theorem recordEntry_idempotent_unique
    (rows : List WalletLedgerRow) (trows : List TeacherLedgerRow) (sid tid : Nat)
    (dir src rt ri : String) (a1 p1 a2 p2 : Int) (n1 n2 : Option String)
    (calls : List (Int × Int × Option String)) (tcalls : List (Int × Option String))
    (hrt : rt ≠ "") (hri : ri ≠ "") :
    (recordWalletLedgerRows
        (recordWalletLedgerRows rows sid dir a1 p1 src (some rt) (some ri) n1).2
        sid dir a2 p2 src (some rt) (some ri) n2
      = ((recordWalletLedgerRows rows sid dir a1 p1 src (some rt) (some ri) n1).1,
         (recordWalletLedgerRows rows sid dir a1 p1 src (some rt) (some ri) n1).2))
    ∧ (rows.countP (wlKey sid dir src (some rt) (some ri)) = 0 → calls ≠ [] →
        (recordWalletLedgerSeq rows sid dir src (some rt) (some ri) calls).countP
            (wlKey sid dir src (some rt) (some ri)) = 1
        ∧ (recordWalletLedgerSeq rows sid dir src (some rt) (some ri) calls).length
            = rows.length + 1)
    ∧ (recordTeacherLedgerRows
        (recordTeacherLedgerRows trows tid dir a1 src (some rt) (some ri) n1).2
        tid dir a2 src (some rt) (some ri) n2
      = ((recordTeacherLedgerRows trows tid dir a1 src (some rt) (some ri) n1).1,
         (recordTeacherLedgerRows trows tid dir a1 src (some rt) (some ri) n1).2))
    ∧ (trows.countP (tlKey tid dir src (some rt) (some ri)) = 0 → tcalls ≠ [] →
        (recordTeacherLedgerSeq trows tid dir src (some rt) (some ri) tcalls).countP
            (tlKey tid dir src (some rt) (some ri)) = 1
        ∧ (recordTeacherLedgerSeq trows tid dir src (some rt) (some ri) tcalls).length
            = trows.length + 1) := by
  have ht := optTruthy_pair_true hrt hri
  refine ⟨?_, ?_, ?_, ?_⟩
  · cases hf : rows.find? (wlKey sid dir src (some rt) (some ri)) with
    | some e =>
      rw [recordWallet_of_some ht hf, recordWallet_of_some ht hf]
    | none =>
      rw [recordWallet_of_none ht hf]
      have hf2 : (rows ++ [mkWalletRow sid dir (max a1 0) p1 src (some rt) (some ri) n1]).find?
          (wlKey sid dir src (some rt) (some ri))
          = some (mkWalletRow sid dir (max a1 0) p1 src (some rt) (some ri) n1) := by
        rw [List.find?_append, hf]
        simp [List.find?, wlKey_self]
      rw [recordWallet_of_some ht hf2]
  · intro hc hne
    cases calls with
    | nil => exact absurd rfl hne
    | cons c cs =>
      have hf := find?_of_countP_zero hc
      unfold recordWalletLedgerSeq
      simp only [List.foldl_cons]
      rw [recordWallet_of_none ht hf]
      have hrows1 : (rows ++ [mkWalletRow sid dir (max c.1 0) c.2.1 src (some rt) (some ri)
          c.2.2]).countP (wlKey sid dir src (some rt) (some ri)) = 1 := by
        rw [List.countP_append, hc]
        simp [List.countP_cons, wlKey_self]
      have hno := recordWalletSeq_noop ht cs
        (rows ++ [mkWalletRow sid dir (max c.1 0) c.2.1 src (some rt) (some ri) c.2.2])
        (by rw [hrows1]; omega)
      unfold recordWalletLedgerSeq at hno
      rw [hno, hrows1]
      simp
  · cases hf : trows.find? (tlKey tid dir src (some rt) (some ri)) with
    | some e =>
      rw [recordTeacher_of_some ht hf, recordTeacher_of_some ht hf]
    | none =>
      rw [recordTeacher_of_none ht hf]
      have hf2 : (trows ++ [mkTeacherRow tid dir (max a1 0) src (some rt) (some ri) n1]).find?
          (tlKey tid dir src (some rt) (some ri))
          = some (mkTeacherRow tid dir (max a1 0) src (some rt) (some ri) n1) := by
        rw [List.find?_append, hf]
        simp [List.find?, tlKey_self]
      rw [recordTeacher_of_some ht hf2]
  · intro hc hne
    cases tcalls with
    | nil => exact absurd rfl hne
    | cons c cs =>
      have hf := find?_of_countP_zero hc
      unfold recordTeacherLedgerSeq
      simp only [List.foldl_cons]
      rw [recordTeacher_of_none ht hf]
      have hrows1 : (trows ++ [mkTeacherRow tid dir (max c.1 0) src (some rt) (some ri)
          c.2]).countP (tlKey tid dir src (some rt) (some ri)) = 1 := by
        rw [List.countP_append, hc]
        simp [List.countP_cons, tlKey_self]
      have hno := recordTeacherSeq_noop ht cs
        (trows ++ [mkTeacherRow tid dir (max c.1 0) src (some rt) (some ri) c.2])
        (by rw [hrows1]; omega)
      unfold recordTeacherLedgerSeq at hno
      rw [hno, hrows1]
      simp

/-- Witness for C1 at a concrete two-call sequence. -/
theorem recordEntry_idempotent_unique_witness :
    ("payment_transaction" : String) ≠ "" ∧ ("7" : String) ≠ "" ∧
    (recordWalletLedgerSeq [] 2 "debit" "subscription_checkout"
        (some "payment_transaction") (some "7") [(100, 0, none), (250, 0, none)]).countP
      (wlKey 2 "debit" "subscription_checkout" (some "payment_transaction") (some "7")) = 1
    ∧ (recordWalletLedgerSeq [] 2 "debit" "subscription_checkout"
        (some "payment_transaction") (some "7") [(100, 0, none), (250, 0, none)]).length
      = 0 + 1 :=
  ⟨by decide, by decide,
    (recordEntry_idempotent_unique [] [] 2 1 "debit" "subscription_checkout"
      "payment_transaction" "7" 100 0 250 0 none none [(100, 0, none), (250, 0, none)] []
      (by decide) (by decide)).2.1 (by decide) (by decide)⟩

/-! ### The 70/30 earnings split -/

theorem calcTeacherEarnings_bounds (a : Int) (h : 0 ≤ a) :
    0 ≤ (calcTeacherEarningsCents a).1 ∧ (calcTeacherEarningsCents a).1 ≤ a
    ∧ 7 * a - 5 ≤ 10 * (calcTeacherEarningsCents a).1
    ∧ 10 * (calcTeacherEarningsCents a).1 ≤ 7 * a + 5 := by
  have hdm : 10 * Int.ediv (7 * a) 10 + Int.emod (7 * a) 10 = 7 * a :=
    Int.ediv_add_emod (7 * a) 10
  have hr0 : 0 ≤ Int.emod (7 * a) 10 := Int.emod_nonneg _ (by norm_num)
  have hr9 : Int.emod (7 * a) 10 < 10 := Int.emod_lt_of_pos _ (by norm_num)
  unfold calcTeacherEarningsCents
  dsimp only
  split_ifs <;> omega

theorem calcTeacherEarnings_pos (a : Int) (h : 0 < a) :
    0 < (calcTeacherEarningsCents a).1 := by
  have := (calcTeacherEarnings_bounds a (le_of_lt h)).2.2.1
  omega

/-- C4.  For every paid transaction amount (nonnegative), the computed
earnings and fee are nonnegative, sum to the amount, and realize the 70/30
split (earnings is within half a cent times ten of 70 percent); in
particular 12000 cents split into 8400 and 3600. -/
theorem teacher_earnings_split (a : Int) (h : 0 ≤ a) :
    (calcTeacherEarningsCents a).1 + (calcTeacherEarningsCents a).2 = a
    ∧ 0 ≤ (calcTeacherEarningsCents a).1 ∧ 0 ≤ (calcTeacherEarningsCents a).2
    ∧ 7 * a - 5 ≤ 10 * (calcTeacherEarningsCents a).1
    ∧ 10 * (calcTeacherEarningsCents a).1 ≤ 7 * a + 5
    ∧ calcTeacherEarningsCents 12000 = (8400, 3600) := by
  obtain ⟨h0, hle, hlo, hhi⟩ := calcTeacherEarnings_bounds a h
  have hfee : (calcTeacherEarningsCents a).2 = a - (calcTeacherEarningsCents a).1 := by
    unfold calcTeacherEarningsCents
    unfold calcTeacherEarningsCents at hle
    dsimp only at hle ⊢
    omega
  refine ⟨by omega, h0, by omega, hlo, hhi, by decide⟩

/-- Witness for C4 at the spec's example amount. -/
theorem teacher_earnings_split_witness :
    (0 : Int) ≤ 12000 ∧ calcTeacherEarningsCents 12000 = (8400, 3600) :=
  ⟨by decide, (teacher_earnings_split 12000 (by decide)).2.2.2.2.2⟩

/-! ### Session status recomputation -/

theorem refreshLive_eval (status : String) (startsAt dur now : Int) :
    refreshLiveStatus "live" status startsAt dur now =
      (if startsAt + max (if dur = 0 then 60 else dur) 1 ≤ now then "ended"
       else if startsAt ≤ now + 10 then "live" else "scheduled") := by
  simp [refreshLiveStatus]

/-- C9.  Session status is a pure function of (kind, status, starts_at,
duration, now): live sessions are ended once now reaches starts_at plus
duration, live within the ten-minute pre-open window, otherwise scheduled;
non-live kinds keep their stored status (courses stay scheduled and are
never auto-ended); creation picks the initial status by the same rule; and
the spec's three example instants compute as stated. -/
theorem session_status_pure (kind status : String) (startsAt dur now : Int) :
    (refreshLiveStatus "live" status startsAt dur now =
      (if startsAt + max (if dur = 0 then 60 else dur) 1 ≤ now then "ended"
       else if startsAt ≤ now + 10 then "live" else "scheduled"))
    ∧ (kind ≠ "live" → refreshLiveStatus kind status startsAt dur now = status)
    ∧ refreshLiveStatus "course" "scheduled" startsAt dur now = "scheduled"
    ∧ initialSessionStatus kind startsAt dur now =
        refreshLiveStatus kind "scheduled" startsAt dur now
    ∧ refreshLiveStatus "live" status (now - 61) 60 now = "ended"
    ∧ refreshLiveStatus "live" status (now + 5) 60 now = "live"
    ∧ refreshLiveStatus "live" status (now + 30) 60 now = "scheduled" := by
  have hd : max (if (60 : Int) = 0 then (60 : Int) else 60) 1 = 60 := by norm_num
  refine ⟨refreshLive_eval status startsAt dur now, ?_, ?_, ?_, ?_, ?_, ?_⟩
  · intro hk
    simp [refreshLiveStatus, bne_iff_ne, hk]
  · simp [refreshLiveStatus]
  · by_cases hk : kind = "live"
    · subst hk
      simp [initialSessionStatus, refreshLiveStatus]
    · simp [initialSessionStatus, refreshLiveStatus, bne_iff_ne, hk]
  · rw [refreshLive_eval, hd, if_pos (by omega)]
  · rw [refreshLive_eval, hd, if_neg (by omega), if_pos (by omega)]
  · rw [refreshLive_eval, hd, if_neg (by omega), if_neg (by omega)]

/-- Witness for C9: the non-live branch instantiated for a course session. -/
theorem session_status_pure_witness :
    ("course" : String) ≠ "live"
    ∧ refreshLiveStatus "course" "scheduled" 0 60 1000 = "scheduled" :=
  ⟨by decide, (session_status_pure "course" "scheduled" 0 60 1000).2.1 (by decide)⟩

/-! ### Generic helpers: decimal representation, updateFirst, balances -/

theorem toDigitsCore_length_le (base : Nat) :
    ∀ (fuel n : Nat) (ds : List Char), ds.length ≤ (Nat.toDigitsCore base fuel n ds).length
  | 0, n, ds => by simp [Nat.toDigitsCore]
  | fuel + 1, n, ds => by
    simp only [Nat.toDigitsCore]
    split
    · simp
    · calc ds.length ≤ (List.length ((n % base).digitChar :: ds)) := by simp
        _ ≤ _ := toDigitsCore_length_le base fuel (n / base) _

theorem toString_nat_ne_empty (n : Nat) : toString n ≠ "" := by
  show Nat.repr n ≠ ""
  unfold Nat.repr
  intro h
  have h2 : (Nat.toDigits 10 n).length = 0 := by
    have := congrArg String.length h
    simpa [List.asString, String.length] using this
  have h3 : (1 : Nat) ≤ (Nat.toDigits 10 n).length := by
    unfold Nat.toDigits
    simp only [Nat.toDigitsCore]
    split
    · simp
    · calc (1 : Nat) ≤ (List.length ((n % 10).digitChar :: [])) := by simp
        _ ≤ _ := toDigitsCore_length_le 10 n (n / 10) _
  omega

theorem optTruthy_lit_toString {lit : String} (hlit : lit ≠ "") (n : Nat) :
    (optTruthy (some lit) && optTruthy (some (toString n))) = true :=
  optTruthy_pair_true hlit (toString_nat_ne_empty n)

theorem updateFirst_self {p : α → Bool} :
    ∀ {l : List α} {a : α}, l.find? p = some a → updateFirst p (fun _ => a) l = l
  | [], a, h => by simp at h
  | x :: xs, a, h => by
    unfold updateFirst
    by_cases hx : p x
    · rw [List.find?_cons_of_pos _ hx] at h
      cases h
      rw [if_pos hx]
    · rw [List.find?_cons_of_neg _ hx] at h
      rw [if_neg hx, updateFirst_self h]

theorem find?_updateFirst {p : α → Bool} {f : α → α} :
    ∀ {l : List α} {a : α}, l.find? p = some a → p (f a) = true →
      (updateFirst p f l).find? p = some (f a)
  | [], a, h, _ => by simp at h
  | x :: xs, a, h, hpf => by
    unfold updateFirst
    by_cases hx : p x
    · rw [List.find?_cons_of_pos _ hx] at h
      cases h
      rw [if_pos hx]
      exact List.find?_cons_of_pos _ hpf
    · rw [List.find?_cons_of_neg _ hx] at h
      rw [if_neg hx, List.find?_cons_of_neg _ hx]
      exact find?_updateFirst h hpf

theorem ensure_balance_find (s : DBState) (sid : Nat) :
    findBalance (ensureStudentBalance s sid).2 sid = some (ensureStudentBalance s sid).1 := by
  unfold ensureStudentBalance findBalance
  rcases hb : s.balances.find? (fun b => b.1 == sid) with _ | b
  · simp [hb, List.find?_append]
  · simp [hb]

theorem ensure_state_eq (s : DBState) (sid : Nat) :
    (ensureStudentBalance s sid).2
      = { s with balances := (ensureStudentBalance s sid).2.balances } := by
  unfold ensureStudentBalance
  rcases hb : s.balances.find? (fun b => b.1 == sid) with _ | b <;> simp [hb]

/-! ### Points-charged subscription creation -/

theorem createSubscription_insufficient (s : DBState) (t st : Nat) (m spm now : Int)
    (hactive : activeSubscription s t st = none)
    (hlt : (ensureStudentBalance s st).1 < calcPointsCost m spm) :
    createSubscription s t st m spm true now
      = (.error .insufficientBalance, (ensureStudentBalance s st).2) := by
  unfold createSubscription
  rw [hactive]
  simp only [if_pos hlt, if_true]

theorem createSubscription_charge_shape (s : DBState) (t st : Nat) (m spm now : Int)
    (hactive : activeSubscription s t st = none)
    (hge : calcPointsCost m spm ≤ (ensureStudentBalance s st).1) :
    createSubscription s t st m spm true now
      = (.ok (mkSubRow s.nextSubId t st m spm (calcPointsCost m spm) now
            (now + 30 * m * minutesPerDay)),
         (recordWalletLedger
           { setStudentBalance (ensureStudentBalance s st).2 st
               ((ensureStudentBalance s st).1 - calcPointsCost m spm) with
             subscriptions := s.subscriptions ++ [mkSubRow s.nextSubId t st m spm
               (calcPointsCost m spm) now (now + 30 * m * minutesPerDay)]
             nextSubId := s.nextSubId + 1 }
           st "debit" (calcPointsCost m spm * 100) (-(calcPointsCost m spm))
           "points_subscription" (some "subscription") (some (toString s.nextSubId))
           (some ("Subscription points debit (" ++ toString (calcPointsCost m spm)
             ++ " pts)"))).2) := by
  unfold createSubscription
  rw [hactive]
  simp only [if_neg (not_lt.mpr hge), if_true]
  rcases hb : s.balances.find? (fun b => b.1 == st) with _ | b <;>
    simp [ensureStudentBalance, setStudentBalance, mkSubRow, hb]

/-- C3.  A charge-balance subscribe with no pre-existing active subscription:
cost is months times sessions-per-month times five; an insufficient balance
fails with the balance untouched; otherwise the balance drops by the cost,
exactly one points_subscription debit row with points_delta equal to minus
the cost and reference (subscription, id) is appended, and the subscription
row is inserted active with starts_at now and ends_at thirty times months
days later. -/
theorem subscription_points_charge (s : DBState) (t st : Nat) (m spm now : Int)
    (hactive : activeSubscription s t st = none) :
    calcPointsCost m spm = m * spm * 5
    ∧ (mkSubRow s.nextSubId t st m spm (calcPointsCost m spm) now
        (now + 30 * m * minutesPerDay)).status = "active"
    ∧ ((ensureStudentBalance s st).1 < calcPointsCost m spm →
        createSubscription s t st m spm true now
          = (.error .insufficientBalance, (ensureStudentBalance s st).2)
        ∧ findBalance (ensureStudentBalance s st).2 st
          = some (ensureStudentBalance s st).1)
    ∧ (calcPointsCost m spm ≤ (ensureStudentBalance s st).1 →
        s.walletLedger.countP (wlKey st "debit" "points_subscription"
          (some "subscription") (some (toString s.nextSubId))) = 0 →
        (createSubscription s t st m spm true now).1
            = .ok (mkSubRow s.nextSubId t st m spm (calcPointsCost m spm) now
                (now + 30 * m * minutesPerDay))
        ∧ findBalance (createSubscription s t st m spm true now).2 st
            = some ((ensureStudentBalance s st).1 - calcPointsCost m spm)
        ∧ (createSubscription s t st m spm true now).2.walletLedger
            = s.walletLedger ++ [mkWalletRow st "debit" (max (calcPointsCost m spm * 100) 0)
                (-(calcPointsCost m spm)) "points_subscription" (some "subscription")
                (some (toString s.nextSubId))
                (some ("Subscription points debit (" ++ toString (calcPointsCost m spm)
                  ++ " pts)"))]
        ∧ (createSubscription s t st m spm true now).2.walletLedger.countP
            (wlKey st "debit" "points_subscription" (some "subscription")
              (some (toString s.nextSubId))) = 1
        ∧ (createSubscription s t st m spm true now).2.subscriptions
            = s.subscriptions ++ [mkSubRow s.nextSubId t st m spm (calcPointsCost m spm)
                now (now + 30 * m * minutesPerDay)]) := by
  refine ⟨rfl, rfl, fun hlt =>
    ⟨createSubscription_insufficient s t st m spm now hactive hlt,
     ensure_balance_find s st⟩, fun hge hfresh => ?_⟩
  have hshape := createSubscription_charge_shape s t st m spm now hactive hge
  have ht : (optTruthy (some "subscription") && optTruthy (some (toString s.nextSubId)))
      = true := optTruthy_lit_toString (by decide) s.nextSubId
  have hwall : (ensureStudentBalance s st).2.walletLedger = s.walletLedger := by
    rw [ensure_state_eq s st]
  have hled : (createSubscription s t st m spm true now).2.walletLedger
      = s.walletLedger ++ [mkWalletRow st "debit" (max (calcPointsCost m spm * 100) 0)
          (-(calcPointsCost m spm)) "points_subscription" (some "subscription")
          (some (toString s.nextSubId))
          (some ("Subscription points debit (" ++ toString (calcPointsCost m spm)
            ++ " pts)"))] := by
    have h2 : (createSubscription s t st m spm true now).2.walletLedger
        = (recordWalletLedgerRows (ensureStudentBalance s st).2.walletLedger st "debit"
            (calcPointsCost m spm * 100) (-(calcPointsCost m spm)) "points_subscription"
            (some "subscription") (some (toString s.nextSubId))
            (some ("Subscription points debit (" ++ toString (calcPointsCost m spm)
              ++ " pts)"))).2 := by
      rw [hshape]
      rfl
    rw [h2, hwall, recordWallet_of_none ht (find?_of_countP_zero hfresh)]
  refine ⟨?_, ?_, hled, ?_, ?_⟩
  · rw [hshape]
  · -- the balance row now carries the debited value
    obtain ⟨b, hb⟩ : ∃ b, (ensureStudentBalance s st).2.balances.find?
        (fun x => x.1 == st) = some b := by
      have h := ensure_balance_find s st
      unfold findBalance at h
      rcases hfb : (ensureStudentBalance s st).2.balances.find? (fun x => x.1 == st) with
        _ | b
      · rw [hfb] at h
        simp at h
      · exact ⟨b, hfb⟩
    have hupd := find?_updateFirst (f := fun x =>
        (x.1, (ensureStudentBalance s st).1 - calcPointsCost m spm)) hb
      (by have := List.find?_some hb; simpa using this)
    have hbal_eq : (createSubscription s t st m spm true now).2.balances
        = updateFirst (fun x => x.1 == st)
            (fun x => (x.1, (ensureStudentBalance s st).1 - calcPointsCost m spm))
            (ensureStudentBalance s st).2.balances := by
      rw [hshape]
      rfl
    unfold findBalance
    rw [hbal_eq, hupd]
    simp
  · rw [hled, List.countP_append, hfresh]
    simp [List.countP_cons, wlKey_self]
  · rw [hshape]
    rfl

/-- Witness for C3: the spec's example, a fresh student with the default 500
point grant subscribing for 3 months at 8 sessions per month. -/
theorem subscription_points_charge_witness :
    activeSubscription initState 1 2 = none
    ∧ calcPointsCost 3 8 ≤ (ensureStudentBalance initState 2).1
    ∧ (ensureStudentBalance initState 2).1 = 500
    ∧ findBalance (createSubscription initState 1 2 3 8 true 0).2 2 = some 380
    ∧ (createSubscription initState 1 2 3 8 true 0).1
        = .ok (mkSubRow 0 1 2 3 8 120 0 129600) := by
  have h := (subscription_points_charge initState 1 2 3 8 0 (by decide)).2.2.2
    (by decide) (by decide)
  refine ⟨by decide, by decide, by decide, ?_, ?_⟩
  · rw [h.2.1]
    decide
  · rw [h.1]
    decide

/-! ### State projections of the engine operations -/

theorem credit_only_teacherLedger (s : DBState) (p : Payment) :
    (creditTeacherWalletFromPayment s p).balances = s.balances
    ∧ (creditTeacherWalletFromPayment s p).walletLedger = s.walletLedger
    ∧ (creditTeacherWalletFromPayment s p).subscriptions = s.subscriptions
    ∧ (creditTeacherWalletFromPayment s p).payments = s.payments
    ∧ (creditTeacherWalletFromPayment s p).withdrawals = s.withdrawals
    ∧ (creditTeacherWalletFromPayment s p).nextSubId = s.nextSubId
    ∧ (creditTeacherWalletFromPayment s p).nextPaymentId = s.nextPaymentId
    ∧ (creditTeacherWalletFromPayment s p).nextWithdrawalId = s.nextWithdrawalId := by
  unfold creditTeacherWalletFromPayment
  dsimp only
  split_ifs <;> exact ⟨rfl, rfl, rfl, rfl, rfl, rfl, rfl, rfl⟩

theorem syncStep_proj (s : DBState) (pid : Nat) :
    (syncStep s pid).balances = s.balances
    ∧ (syncStep s pid).walletLedger = s.walletLedger
    ∧ (syncStep s pid).subscriptions = s.subscriptions
    ∧ (syncStep s pid).withdrawals = s.withdrawals
    ∧ (syncStep s pid).nextSubId = s.nextSubId
    ∧ (syncStep s pid).nextPaymentId = s.nextPaymentId
    ∧ (syncStep s pid).nextWithdrawalId = s.nextWithdrawalId := by
  unfold syncStep
  rcases h : s.payments.find? (fun p => p.id == pid) with _ | p
  · simp [h]
  · simp only [h]
    refine ⟨?_, ?_, ?_, ?_, ?_, ?_, ?_⟩
    · exact (credit_only_teacherLedger _ _).1
    · exact (credit_only_teacherLedger _ _).2.1
    · exact (credit_only_teacherLedger _ _).2.2.1
    · exact (credit_only_teacherLedger _ _).2.2.2.2.1
    · exact (credit_only_teacherLedger _ _).2.2.2.2.2.1
    · exact (credit_only_teacherLedger _ _).2.2.2.2.2.2.1
    · exact (credit_only_teacherLedger _ _).2.2.2.2.2.2.2

theorem foldl_syncStep_pres {P : DBState → Prop}
    (h : ∀ s2 pid, P s2 → P (syncStep s2 pid)) :
    ∀ (ids : List Nat) (s2 : DBState), P s2 → P (ids.foldl syncStep s2)
  | [], _, hs => hs
  | i :: is, s2, hs => foldl_syncStep_pres h is _ (h s2 i hs)

theorem sync_subscriptions (s : DBState) (tid : Nat) :
    (syncTeacherWalletFromPaidTransactions s tid).subscriptions = s.subscriptions := by
  unfold syncTeacherWalletFromPaidTransactions
  exact foldl_syncStep_pres (P := fun s2 => s2.subscriptions = s.subscriptions)
    (fun s2 pid h => by
      dsimp only at h ⊢
      rw [(syncStep_proj s2 pid).2.2.1]
      exact h) _ s rfl

theorem recordPoints_subscriptions (s : DBState) (t st : Nat) (sub : Subscription)
    (now : Int) :
    (recordPointsSubscriptionPayment s t st sub now).2.subscriptions = s.subscriptions := by
  unfold recordPointsSubscriptionPayment
  rcases h : s.payments.find? (pointsPaymentFor sub.id) with _ | p
  · simp only [h]
    exact (credit_only_teacherLedger _ _).2.2.1
  · simp only [h]

theorem withdrawCreate_subscriptions (s : DBState) (tid : Nat) (a : Int) (meth : String)
    (em note : Option String) :
    (createTeacherWithdrawal s tid a meth em note).2.subscriptions = s.subscriptions := by
  unfold createTeacherWithdrawal
  have hs := sync_subscriptions s tid
  dsimp only
  split_ifs <;> exact hs

theorem withdrawUpdate_subscriptions (s : DBState) (tid wid : Nat) (adm : Bool)
    (ns : String) (an er : Option String) (pc ok : Bool) (ref : String) (now : Int) :
    (updateTeacherWithdrawal s tid wid adm ns an er pc ok ref now).2.subscriptions
      = s.subscriptions := by
  unfold updateTeacherWithdrawal
  split
  · rfl
  · split
    · rfl
    · split
      · rfl
      · split
        · rfl
        · split
          · rfl
          · dsimp only
            split
            · rfl
            · split_ifs <;> rfl

/-! ### The at-most-one-active-subscription invariant -/

theorem AU_congr {s1 s2 : DBState} (h : s2.subscriptions = s1.subscriptions)
    (hAU : ActiveUnique s1) : ActiveUnique s2 := by
  intro a b
  rw [h]
  exact hAU a b

theorem countP_activeFor_zero_of_none {l : List Subscription} {t st : Nat}
    (h : l.find? (activeFor t st) = none) : l.countP (activeFor t st) = 0 := by
  rw [List.countP_eq_zero]
  intro x hx
  exact List.find?_eq_none.mp h x hx

theorem AU_append {s : DBState} (hAU : ActiveUnique s) {t st : Nat} {sub : Subscription}
    (hnone : activeSubscription s t st = none)
    (ht : sub.teacherId = t) (hst : sub.studentId = st) :
    ∀ a b, (s.subscriptions ++ [sub]).countP (activeFor a b) ≤ 1 := by
  intro a b
  rw [List.countP_append]
  by_cases hm : activeFor a b sub = true
  · have hm2 := hm
    unfold activeFor at hm2
    simp only [Bool.and_eq_true, beq_iff_eq] at hm2
    obtain ⟨⟨hta, hsb⟩, _⟩ := hm2
    have hz : s.subscriptions.countP (activeFor a b) = 0 := by
      have : a = t := by omega
      subst this
      have : b = st := by omega
      subst this
      exact countP_activeFor_zero_of_none hnone
    rw [hz]
    simp [List.countP_cons, hm]
  · have hz : List.countP (activeFor a b) [sub] = 0 := by
      simp [List.countP_cons]
      simpa using hm
    rw [hz]
    simpa using hAU a b

theorem createSubscription_nocharge_shape (s : DBState) (t st : Nat) (m spm now : Int)
    (hact : activeSubscription s t st = none) :
    createSubscription s t st m spm false now
      = (.ok (mkSubRow s.nextSubId t st m spm (calcPointsCost m spm) now
            (now + 30 * m * minutesPerDay)),
         { s with
           subscriptions := s.subscriptions ++ [mkSubRow s.nextSubId t st m spm
             (calcPointsCost m spm) now (now + 30 * m * minutesPerDay)]
           nextSubId := s.nextSubId + 1 }) := by
  unfold createSubscription
  rw [hact]
  rfl

/-- Outcome analysis of _create_subscription: either the existing active row
is returned with the state unchanged, or the charge fails leaving only the
lazily created balance row, or the new active subscription is appended. -/
theorem createSubscription_cases (s : DBState) (t st : Nat) (m spm : Int) (cb : Bool)
    (now : Int) :
    (∃ e, activeSubscription s t st = some e
      ∧ createSubscription s t st m spm cb now = (.ok e, s))
    ∨ (activeSubscription s t st = none ∧ cb = true
      ∧ ∃ s2, createSubscription s t st m spm cb now = (.error .insufficientBalance, s2)
        ∧ s2.subscriptions = s.subscriptions ∧ s2.teacherLedger = s.teacherLedger
        ∧ s2.payments = s.payments ∧ s2.walletLedger = s.walletLedger
        ∧ s2.withdrawals = s.withdrawals ∧ s2.nextSubId = s.nextSubId)
    ∨ (activeSubscription s t st = none ∧
        ∃ s2, createSubscription s t st m spm cb now
            = (.ok (mkSubRow s.nextSubId t st m spm (calcPointsCost m spm) now
                (now + 30 * m * minutesPerDay)), s2)
          ∧ s2.subscriptions = s.subscriptions ++ [mkSubRow s.nextSubId t st m spm
              (calcPointsCost m spm) now (now + 30 * m * minutesPerDay)]
          ∧ s2.teacherLedger = s.teacherLedger
          ∧ s2.payments = s.payments
          ∧ s2.withdrawals = s.withdrawals
          ∧ s2.nextSubId = s.nextSubId + 1
          ∧ (cb = false → s2.walletLedger = s.walletLedger ∧ s2.balances = s.balances)) := by
  rcases hact : activeSubscription s t st with _ | e
  · cases cb with
    | false =>
      right; right
      exact ⟨rfl, _, createSubscription_nocharge_shape s t st m spm now hact,
        rfl, rfl, rfl, rfl, rfl, fun _ => ⟨rfl, rfl⟩⟩
    | true =>
      by_cases hlt : (ensureStudentBalance s st).1 < calcPointsCost m spm
      · right; left
        refine ⟨rfl, rfl, (ensureStudentBalance s st).2,
          createSubscription_insufficient s t st m spm now hact hlt, ?_, ?_, ?_, ?_, ?_, ?_⟩
          <;> rw [ensure_state_eq s st]
      · right; right
        have hshape := createSubscription_charge_shape s t st m spm now hact
          (not_lt.mp hlt)
        refine ⟨rfl, _, hshape, rfl, ?_, ?_, ?_, rfl, fun hcb => by cases hcb⟩ <;>
          (rw [ensure_state_eq s st] <;> rfl)
  · left
    refine ⟨e, rfl, ?_⟩
    unfold createSubscription
    rw [hact]

theorem createSubscription_AU (s : DBState) (t st : Nat) (m spm : Int) (cb : Bool)
    (now : Int) (hAU : ActiveUnique s) :
    ActiveUnique (createSubscription s t st m spm cb now).2 := by
  rcases createSubscription_cases s t st m spm cb now with
    ⟨e, _, heq⟩ | ⟨_, _, s2, heq, hsubs, _⟩ | ⟨hact, s2, heq, hsubs, _⟩
  · rw [heq]
    exact hAU
  · rw [heq]
    exact AU_congr hsubs hAU
  · rw [heq]
    intro a b
    show s2.subscriptions.countP (activeFor a b) ≤ 1
    rw [hsubs]
    exact AU_append hAU hact rfl rfl a b

theorem ite_credit_subscriptions (c : Prop) [Decidable c] (s : DBState) (p : Payment) :
    (if c then creditTeacherWalletFromPayment s p else s).subscriptions
      = s.subscriptions := by
  split
  · exact (credit_only_teacherLedger _ _).2.2.1
  · rfl

theorem subscribe_AU (s : DBState) (t st : Nat) (a : Bool) (m spm now : Int)
    (hAU : ActiveUnique s) : ActiveUnique (subscribeTeacher s t st a m spm now).2 := by
  unfold subscribeTeacher
  split
  · exact hAU
  · split
    · exact hAU
    · split
      · exact hAU
      · split
        next e s1 heq =>
          have h2 := createSubscription_AU s t st m spm true now hAU
          rw [heq] at h2
          exact h2
        next sub s1 heq =>
          refine AU_congr (recordPoints_subscriptions s1 t st sub now) ?_
          have h2 := createSubscription_AU s t st m spm true now hAU
          rw [heq] at h2
          exact h2

theorem AU_of_createSubscription_eq {X : DBState} {t st : Nat} {m spm : Int}
    {cb : Bool} {now : Int} {pr : Except ApiError Subscription × DBState}
    (heq : createSubscription X t st m spm cb now = pr)
    (hX : ActiveUnique X) : ActiveUnique pr.2 := by
  have h2 := createSubscription_AU X t st m spm cb now hX
  rw [heq] at h2
  exact h2

theorem confirm_AU (s : DBState) (tok : String) (auth pp : Bool) (cap : Option String)
    (now : Int) (hAU : ActiveUnique s) :
    ActiveUnique (confirmSubscriptionCheckout s tok auth pp cap now).2 := by
  unfold confirmSubscriptionCheckout
  split
  · exact hAU
  next row hfind =>
    split
    · exact hAU
    · split
      · exact hAU
      next row1 tr hph =>
        split
        all_goals split
        all_goals dsimp only
        all_goals split
        next e s3 heq =>
          exact AU_of_createSubscription_eq heq
            (AU_congr ((credit_only_teacherLedger _ _).2.2.1.trans rfl) hAU)
        next sub s3 heq =>
          refine AU_congr ?_ (AU_of_createSubscription_eq heq
            (AU_congr ((credit_only_teacherLedger _ _).2.2.1.trans rfl) hAU))
          rfl
        next e s3 heq =>
          exact AU_of_createSubscription_eq heq
            (AU_congr ((credit_only_teacherLedger _ _).2.2.1.trans rfl) hAU)
        next sub s3 heq =>
          refine AU_congr ?_ (AU_of_createSubscription_eq heq
            (AU_congr ((credit_only_teacherLedger _ _).2.2.1.trans rfl) hAU))
          rfl
        next e s3 heq =>
          exact AU_of_createSubscription_eq heq (AU_congr rfl hAU)
        next sub s3 heq =>
          refine AU_congr ?_ (AU_of_createSubscription_eq heq (AU_congr rfl hAU))
          rfl
        next e s3 heq =>
          exact AU_of_createSubscription_eq heq (AU_congr rfl hAU)
        next sub s3 heq =>
          refine AU_congr ?_ (AU_of_createSubscription_eq heq (AU_congr rfl hAU))
          rfl

theorem applyOp_AU (s : DBState) (op : EngineOp) (hAU : ActiveUnique s) :
    ActiveUnique (applyOp s op) := by
  cases op with
  | subscribe t st a m spm now => exact subscribe_AU s t st a m spm now hAU
  | confirm tok auth pp cap now => exact confirm_AU s tok auth pp cap now hAU
  | withdrawCreate t a m e n =>
    exact AU_congr (withdrawCreate_subscriptions s t a m e n) hAU
  | withdrawUpdate t w adm ns an er pc ok ref now =>
    exact AU_congr (withdrawUpdate_subscriptions s t w adm ns an er pc ok ref now) hAU

theorem reachable_AU {s : DBState} (h : Reachable s) : ActiveUnique s := by
  induction h with
  | init =>
    intro a b
    simp [initState]
  | step s2 op _ ih => exact applyOp_AU s2 op ih

theorem subscribe_existing_noop (s : DBState) (t st : Nat) (m spm now : Int)
    (e : Subscription) (hne : st ≠ t) (he : activeSubscription s t st = some e) :
    subscribeTeacher s t st true m spm now = (.ok e, s) := by
  unfold subscribeTeacher
  rw [if_neg (by simpa using hne)]
  rw [he]
  rfl

/-- C5.  At every reachable state there is at most one active subscription
row per (teacher, student) pair, and a subscribe call for a pair with an
existing active subscription returns that row with the whole state
unchanged (no charge, no ledger write). -/
theorem active_subscription_uniqueness (s : DBState) (t st : Nat) (m spm now : Int)
    (e : Subscription) (hreach : Reachable s) :
    ActiveUnique s
    ∧ (st ≠ t → activeSubscription s t st = some e →
        subscribeTeacher s t st true m spm now = (.ok e, s)) :=
  ⟨reachable_AU hreach, fun hne he => subscribe_existing_noop s t st m spm now e hne he⟩

/-- Witness for C5 at the state reached by one successful subscribe. -/
theorem active_subscription_uniqueness_witness :
    (2 : Nat) ≠ 1
    ∧ activeSubscription (applyOp initState (.subscribe 1 2 true 3 8 0)) 1 2
        = some (mkSubRow 0 1 2 3 8 120 0 129600)
    ∧ subscribeTeacher (applyOp initState (.subscribe 1 2 true 3 8 0)) 1 2 true 3 8 99
        = (.ok (mkSubRow 0 1 2 3 8 120 0 129600),
           applyOp initState (.subscribe 1 2 true 3 8 0))
    ∧ ActiveUnique (applyOp initState (.subscribe 1 2 true 3 8 0)) := by
  have h := active_subscription_uniqueness (applyOp initState (.subscribe 1 2 true 3 8 0))
    1 2 3 8 99 (mkSubRow 0 1 2 3 8 120 0 129600)
    (Reachable.step initState (.subscribe 1 2 true 3 8 0) Reachable.init)
  exact ⟨by decide, by decide, h.2 (by decide) (by decide), h.1⟩

/-! ### The teacher-ledger net balance -/

theorem teacherNet_append (l : List TeacherLedgerRow) (r : TeacherLedgerRow) (tid : Nat) :
    teacherWalletNetCents (l ++ [r]) tid
      = teacherWalletNetCents l tid + teacherNetRow tid r := by
  simp [teacherWalletNetCents]

theorem netRow_mk (t : Nat) (dir : String) (a : Int) (src : String)
    (rt ri n : Option String) (tid : Nat) :
    teacherNetRow tid (mkTeacherRow t dir a src rt ri n)
      = (if t == tid then (if dir == "credit" then a else -a) else 0) := by
  simp [teacherNetRow, mkTeacherRow]

theorem net_record_ge_sub (l : List TeacherLedgerRow) (t : Nat) (dir : String) (a : Int)
    (src : String) (rt ri n : Option String) (tid : Nat) :
    teacherWalletNetCents l tid - (if t == tid then max a 0 else 0)
      ≤ teacherWalletNetCents (recordTeacherLedgerRows l t dir a src rt ri n).2 tid := by
  have hmax : (0 : Int) ≤ max a 0 := le_max_right a 0
  cases hopt : (optTruthy rt && optTruthy ri) with
  | true =>
    rcases hf : l.find? (tlKey t dir src rt ri) with _ | e
    · rw [recordTeacher_of_none hopt hf]
      dsimp only
      rw [teacherNet_append, netRow_mk]
      split_ifs <;> omega
    · rw [recordTeacher_of_some hopt hf]
      dsimp only
      split_ifs <;> omega
  | false =>
    have hrec : recordTeacherLedgerRows l t dir a src rt ri n
        = (mkTeacherRow t dir (max a 0) src rt ri n,
           l ++ [mkTeacherRow t dir (max a 0) src rt ri n]) := by
      simp [recordTeacherLedgerRows, hopt]
    rw [hrec]
    dsimp only
    rw [teacherNet_append, netRow_mk]
    split_ifs <;> omega

theorem net_record_credit_ge (l : List TeacherLedgerRow) (t : Nat) (a : Int)
    (src : String) (rt ri n : Option String) (tid : Nat) :
    teacherWalletNetCents l tid
      ≤ teacherWalletNetCents (recordTeacherLedgerRows l t "credit" a src rt ri n).2 tid := by
  have hmax : (0 : Int) ≤ max a 0 := le_max_right a 0
  cases hopt : (optTruthy rt && optTruthy ri) with
  | true =>
    rcases hf : l.find? (tlKey t "credit" src rt ri) with _ | e
    · rw [recordTeacher_of_none hopt hf]
      dsimp only
      rw [teacherNet_append, netRow_mk]
      split_ifs <;> first | omega | simp_all
    · rw [recordTeacher_of_some hopt hf]
  | false =>
    have hrec : recordTeacherLedgerRows l t "credit" a src rt ri n
        = (mkTeacherRow t "credit" (max a 0) src rt ri n,
           l ++ [mkTeacherRow t "credit" (max a 0) src rt ri n]) := by
      simp [recordTeacherLedgerRows, hopt]
    rw [hrec]
    dsimp only
    rw [teacherNet_append, netRow_mk]
    split_ifs <;> first | omega | simp_all

theorem net_credit_payment_ge (s : DBState) (p : Payment) (tid : Nat) :
    teacherWalletNetCents s.teacherLedger tid
      ≤ teacherWalletNetCents (creditTeacherWalletFromPayment s p).teacherLedger tid := by
  unfold creditTeacherWalletFromPayment
  dsimp only
  split_ifs with h
  · exact le_refl _
  · exact net_record_credit_ge _ _ _ _ _ _ _ _

theorem net_syncStep_ge (s : DBState) (pid tid : Nat) :
    teacherWalletNetCents s.teacherLedger tid
      ≤ teacherWalletNetCents (syncStep s pid).teacherLedger tid := by
  unfold syncStep
  rcases h : s.payments.find? (fun p => p.id == pid) with _ | p
  · simp only [h]
    exact le_refl _
  · simp only [h]
    exact net_credit_payment_ge _ _ tid

theorem net_sync_ge (s : DBState) (tid tid2 : Nat) :
    teacherWalletNetCents s.teacherLedger tid2
      ≤ teacherWalletNetCents
          (syncTeacherWalletFromPaidTransactions s tid).teacherLedger tid2 := by
  unfold syncTeacherWalletFromPaidTransactions
  exact foldl_syncStep_pres
    (P := fun s2 => teacherWalletNetCents s.teacherLedger tid2
      ≤ teacherWalletNetCents s2.teacherLedger tid2)
    (fun s2 pid h => by
      dsimp only at h ⊢
      exact h.trans (net_syncStep_ge s2 pid tid2)) _ s (le_refl _)

theorem createSubscription_teacherLedger (s : DBState) (t st : Nat) (m spm : Int)
    (cb : Bool) (now : Int) :
    (createSubscription s t st m spm cb now).2.teacherLedger = s.teacherLedger := by
  rcases createSubscription_cases s t st m spm cb now with
    ⟨e, _, heq⟩ | ⟨_, _, s2, heq, _, htl, _⟩ | ⟨_, s2, heq, _, htl, _⟩
  · rw [heq]
  · rw [heq]
    exact htl
  · rw [heq]
    exact htl

theorem net_of_createSubscription_eq {X : DBState} {t st : Nat} {m spm : Int}
    {cb : Bool} {now : Int} {pr : Except ApiError Subscription × DBState}
    (heq : createSubscription X t st m spm cb now = pr) :
    pr.2.teacherLedger = X.teacherLedger := by
  have h := createSubscription_teacherLedger X t st m spm cb now
  rw [heq] at h
  exact h

theorem recordPoints_net_ge (s : DBState) (t st : Nat) (sub : Subscription) (now : Int)
    (tid : Nat) :
    teacherWalletNetCents s.teacherLedger tid
      ≤ teacherWalletNetCents
          (recordPointsSubscriptionPayment s t st sub now).2.teacherLedger tid := by
  unfold recordPointsSubscriptionPayment
  rcases h : s.payments.find? (pointsPaymentFor sub.id) with _ | p
  · simp only [h]
    exact net_credit_payment_ge _ _ tid
  · simp only [h]
    exact le_refl _

theorem subscribe_net_ge (s : DBState) (t st : Nat) (a : Bool) (m spm now : Int)
    (tid : Nat) :
    teacherWalletNetCents s.teacherLedger tid
      ≤ teacherWalletNetCents (subscribeTeacher s t st a m spm now).2.teacherLedger tid := by
  unfold subscribeTeacher
  split
  · exact le_refl _
  · split
    · exact le_refl _
    · split
      · exact le_refl _
      · split
        next e s1 heq =>
          rw [show ((Except.error e : Except ApiError Subscription), s1).2.teacherLedger
            = s.teacherLedger from net_of_createSubscription_eq heq]
        next sub s1 heq =>
          have h1 : s1.teacherLedger = s.teacherLedger := net_of_createSubscription_eq heq
          have h2 := recordPoints_net_ge s1 t st sub now tid
          rw [h1] at h2
          exact h2

theorem confirm_net_ge (s : DBState) (tok : String) (auth pp : Bool)
    (cap : Option String) (now : Int) (tid : Nat) :
    teacherWalletNetCents s.teacherLedger tid
      ≤ teacherWalletNetCents
          (confirmSubscriptionCheckout s tok auth pp cap now).2.teacherLedger tid := by
  unfold confirmSubscriptionCheckout
  split
  · exact le_refl _
  next row hfind =>
    split
    · exact le_refl _
    · split
      · exact le_refl _
      next row1 tr hph =>
        split
        all_goals split
        all_goals dsimp only
        all_goals split
        all_goals rename_i s3 heq
        all_goals
          (have h1 := net_of_createSubscription_eq heq
           dsimp only at h1
           show teacherWalletNetCents s.teacherLedger tid
             ≤ teacherWalletNetCents s3.teacherLedger tid
           rw [h1])
        all_goals exact net_credit_payment_ge _ row1 tid

theorem withdrawUpdate_net_ge (s : DBState) (tid wid : Nat) (adm : Bool) (ns : String)
    (an er : Option String) (pc ok : Bool) (ref : String) (now : Int) (tid2 : Nat) :
    teacherWalletNetCents s.teacherLedger tid2
      ≤ teacherWalletNetCents
          (updateTeacherWithdrawal s tid wid adm ns an er pc ok ref now).2.teacherLedger
          tid2 := by
  unfold updateTeacherWithdrawal
  split
  · exact le_refl _
  · split
    · exact le_refl _
    · split
      · exact le_refl _
      · split
        · exact le_refl _
        · split
          · exact le_refl _
          · dsimp only
            split
            · exact le_refl _
            · split_ifs
              all_goals
                first
                  | exact le_refl _
                  | exact net_record_credit_ge _ _ _ _ _ _ _ _

theorem withdrawCreate_nonneg (s : DBState) (tid : Nat) (a : Int) (meth : String)
    (em note : Option String) (h : TeacherNetNonneg s) :
    TeacherNetNonneg (createTeacherWithdrawal s tid a meth em note).2 := by
  intro tid2
  have hsync : 0 ≤ teacherWalletNetCents
      (syncTeacherWalletFromPaidTransactions s tid).teacherLedger tid2 :=
    (h tid2).trans (net_sync_ge s tid tid2)
  unfold createTeacherWithdrawal
  dsimp only
  split_ifs with h1 h2 h3
  · exact hsync
  · exact hsync
  · exact hsync
  · have hrec := net_record_ge_sub
      (syncTeacherWalletFromPaidTransactions s tid).teacherLedger tid "debit" a
      "withdraw_request_hold" (some "withdrawal_request")
      (some (toString (syncTeacherWalletFromPaidTransactions s tid).nextWithdrawalId))
      (some ("Withdrawal request "
        ++ toString (syncTeacherWalletFromPaidTransactions s tid).nextWithdrawalId
        ++ " hold")) tid2
    show 0 ≤ teacherWalletNetCents (recordTeacherLedgerRows
      (syncTeacherWalletFromPaidTransactions s tid).teacherLedger tid "debit" a
      "withdraw_request_hold" (some "withdrawal_request")
      (some (toString (syncTeacherWalletFromPaidTransactions s tid).nextWithdrawalId))
      (some ("Withdrawal request "
        ++ toString (syncTeacherWalletFromPaidTransactions s tid).nextWithdrawalId
        ++ " hold"))).2 tid2
    have hmax : max a 0 = a := max_eq_left (by omega)
    by_cases he : (tid == tid2) = true
    · have he2 : tid = tid2 := by simpa using he
      subst he2
      rw [he] at hrec
      simp only [if_true] at hrec
      push_neg at h3
      omega
    · rw [if_neg (by simpa using he)] at hrec
      omega

theorem applyOp_nonneg (s : DBState) (op : EngineOp) (h : TeacherNetNonneg s) :
    TeacherNetNonneg (applyOp s op) := by
  cases op with
  | subscribe t st a m spm now =>
    exact fun tid => (h tid).trans (subscribe_net_ge s t st a m spm now tid)
  | confirm tok auth pp cap now =>
    exact fun tid => (h tid).trans (confirm_net_ge s tok auth pp cap now tid)
  | withdrawCreate t a meth em n => exact withdrawCreate_nonneg s t a meth em n h
  | withdrawUpdate t w adm ns an er pc ok ref now =>
    exact fun tid =>
      (h tid).trans (withdrawUpdate_net_ge s t w adm ns an er pc ok ref now tid)

/-- C7.  At every state reachable by engine operations, every teacher's
ledger-derived net (credits minus debits) is nonnegative: payment credits
only increase it, withdrawal holds are gated by the availability check, and
rejections and cancellations only credit back. -/
theorem teacher_net_never_negative (s : DBState) (hreach : Reachable s) :
    TeacherNetNonneg s := by
  induction hreach with
  | init =>
    intro tid
    simp [initState, teacherWalletNetCents]
  | step s2 op _ ih => exact applyOp_nonneg s2 op ih

/-- Witness for C7: after a points subscription and a 5000-cent withdrawal
hold, the teacher's net is still nonnegative. -/
theorem teacher_net_never_negative_witness :
    0 ≤ teacherWalletNetCents
      (applyOp (applyOp initState (.subscribe 1 2 true 3 8 0))
        (.withdrawCreate 1 5000 "paypal" none none)).teacherLedger 1 :=
  teacher_net_never_negative
    (applyOp (applyOp initState (.subscribe 1 2 true 3 8 0))
      (.withdrawCreate 1 5000 "paypal" none none))
    (Reachable.step _ _ (Reachable.step _ _ Reachable.init)) 1

/-! ### Withdrawal creation and the availability check -/

theorem withdrawCreate_insufficient (s : DBState) (tid : Nat) (a : Int) (meth : String)
    (em note : Option String)
    (hsync : syncTeacherWalletFromPaidTransactions s tid = s)
    (hmeth : withdrawAllowedMethods.contains meth = true)
    (hpos : 0 < a)
    (hlt : teacherWalletNetCents s.teacherLedger tid < a) :
    createTeacherWithdrawal s tid a meth em note = (.error .insufficientFunds, s) := by
  unfold createTeacherWithdrawal
  rw [hsync]
  dsimp only
  rw [if_neg (by rw [hmeth]; decide), if_neg (by omega), if_pos hlt]

theorem withdrawCreate_shape (s : DBState) (tid : Nat) (a : Int) (meth : String)
    (em note : Option String)
    (hsync : syncTeacherWalletFromPaidTransactions s tid = s)
    (hmeth : withdrawAllowedMethods.contains meth = true)
    (hpos : 0 < a)
    (hge : a ≤ teacherWalletNetCents s.teacherLedger tid) :
    createTeacherWithdrawal s tid a meth em note
      = (.ok (mkWithdrawalReq s.nextWithdrawalId tid a meth em note),
         (recordTeacherLedger
           { s with
             withdrawals := s.withdrawals
               ++ [mkWithdrawalReq s.nextWithdrawalId tid a meth em note]
             nextWithdrawalId := s.nextWithdrawalId + 1 }
           tid "debit" a "withdraw_request_hold" (some "withdrawal_request")
           (some (toString s.nextWithdrawalId))
           (some ("Withdrawal request " ++ toString s.nextWithdrawalId ++ " hold"))).2) := by
  unfold createTeacherWithdrawal
  rw [hsync]
  dsimp only
  rw [if_neg (by rw [hmeth]; decide), if_neg (by omega), if_neg (not_lt.mpr hge)]
  rfl

/-- C6.  Creating a withdrawal for more than the teacher's ledger-derived
available balance fails InsufficientFunds; otherwise the request is inserted
pending and exactly one withdraw_request_hold debit referencing the request
id is appended, dropping availability by the amount immediately.  Stated for
states whose wallet sync is settled, so that available balance is exactly
the ledger-derived net. -/
theorem withdrawal_availability_check (s : DBState) (tid : Nat) (a : Int)
    (meth : String) (em note : Option String)
    (hsync : syncTeacherWalletFromPaidTransactions s tid = s)
    (hmeth : withdrawAllowedMethods.contains meth = true)
    (hpos : 0 < a) :
    (teacherWalletNetCents s.teacherLedger tid < a →
      createTeacherWithdrawal s tid a meth em note = (.error .insufficientFunds, s))
    ∧ (a ≤ teacherWalletNetCents s.teacherLedger tid →
       s.teacherLedger.countP (tlKey tid "debit" "withdraw_request_hold"
         (some "withdrawal_request") (some (toString s.nextWithdrawalId))) = 0 →
       (createTeacherWithdrawal s tid a meth em note).1
           = .ok (mkWithdrawalReq s.nextWithdrawalId tid a meth em note)
       ∧ (mkWithdrawalReq s.nextWithdrawalId tid a meth em note).status = "pending"
       ∧ (createTeacherWithdrawal s tid a meth em note).2.withdrawals
           = s.withdrawals ++ [mkWithdrawalReq s.nextWithdrawalId tid a meth em note]
       ∧ (createTeacherWithdrawal s tid a meth em note).2.teacherLedger
           = s.teacherLedger ++ [mkTeacherRow tid "debit" a "withdraw_request_hold"
               (some "withdrawal_request") (some (toString s.nextWithdrawalId))
               (some ("Withdrawal request " ++ toString s.nextWithdrawalId ++ " hold"))]
       ∧ teacherWalletNetCents
             (createTeacherWithdrawal s tid a meth em note).2.teacherLedger tid
           = teacherWalletNetCents s.teacherLedger tid - a) := by
  refine ⟨withdrawCreate_insufficient s tid a meth em note hsync hmeth hpos,
    fun hge hfresh => ?_⟩
  have hshape := withdrawCreate_shape s tid a meth em note hsync hmeth hpos hge
  have ht : (optTruthy (some "withdrawal_request")
      && optTruthy (some (toString s.nextWithdrawalId))) = true :=
    optTruthy_lit_toString (by decide) s.nextWithdrawalId
  have hmax : max a 0 = a := max_eq_left (by omega)
  have hled : (createTeacherWithdrawal s tid a meth em note).2.teacherLedger
      = s.teacherLedger ++ [mkTeacherRow tid "debit" a "withdraw_request_hold"
          (some "withdrawal_request") (some (toString s.nextWithdrawalId))
          (some ("Withdrawal request " ++ toString s.nextWithdrawalId ++ " hold"))] := by
    have h2 : (createTeacherWithdrawal s tid a meth em note).2.teacherLedger
        = (recordTeacherLedgerRows s.teacherLedger tid "debit" a "withdraw_request_hold"
            (some "withdrawal_request") (some (toString s.nextWithdrawalId))
            (some ("Withdrawal request " ++ toString s.nextWithdrawalId ++ " hold"))).2 := by
      rw [hshape]
      rfl
    rw [h2, recordTeacher_of_none ht (find?_of_countP_zero hfresh), hmax]
  refine ⟨by rw [hshape], rfl, by rw [hshape]; rfl, hled, ?_⟩
  rw [hled, teacherNet_append, netRow_mk]
  simp
  omega

/-- Witness for C6: the spec's example, withdrawing 5000 from an available
balance of 5000 succeeds and drives availability to 0, after which a request
for 1 fails InsufficientFunds. -/
theorem withdrawal_availability_check_witness :
    withdrawAllowedMethods.contains "paypal" = true
    ∧ (0 : Int) < 5000
    ∧ syncTeacherWalletFromPaidTransactions exampleTeacherState 1 = exampleTeacherState
    ∧ teacherWalletNetCents exampleTeacherState.teacherLedger 1 = 5000
    ∧ teacherWalletNetCents
        (createTeacherWithdrawal exampleTeacherState 1 5000 "paypal" none none).2.teacherLedger
        1 = 0
    ∧ createTeacherWithdrawal
        (createTeacherWithdrawal exampleTeacherState 1 5000 "paypal" none none).2
        1 1 "paypal" none none
      = (.error .insufficientFunds,
         (createTeacherWithdrawal exampleTeacherState 1 5000 "paypal" none none).2) := by
  have h1 := (withdrawal_availability_check exampleTeacherState 1 5000 "paypal" none none
    (by decide) (by decide) (by decide)).2 (by decide) (by decide)
  have h2 := (withdrawal_availability_check
    (createTeacherWithdrawal exampleTeacherState 1 5000 "paypal" none none).2
    1 1 "paypal" none none (by decide) (by decide) (by decide)).1 (by decide)
  refine ⟨by decide, by decide, by decide, by decide, ?_, h2⟩
  rw [h1.2.2.2.2]
  decide

/-! ### The wallet_points payment of a points subscription -/

theorem pointsPaymentFor_mk (pid t st : Nat) (sub : Subscription) (now : Int) :
    pointsPaymentFor sub.id (mkPointsPayment pid t st sub now) = true := by
  simp [pointsPaymentFor, mkPointsPayment]

theorem recordPoints_of_some (s : DBState) (t st : Nat) (sub : Subscription) (now : Int)
    {e : Payment} (hf : s.payments.find? (pointsPaymentFor sub.id) = some e) :
    recordPointsSubscriptionPayment s t st sub now = (e, s) := by
  unfold recordPointsSubscriptionPayment
  rw [hf]

theorem recordPoints_of_none (s : DBState) (t st : Nat) (sub : Subscription) (now : Int)
    (hf : s.payments.find? (pointsPaymentFor sub.id) = none) :
    recordPointsSubscriptionPayment s t st sub now
      = (mkPointsPayment s.nextPaymentId t st sub now,
         creditTeacherWalletFromPayment
           { s with
             payments := s.payments ++ [mkPointsPayment s.nextPaymentId t st sub now]
             nextPaymentId := s.nextPaymentId + 1 }
           (mkPointsPayment s.nextPaymentId t st sub now)) := by
  unfold recordPointsSubscriptionPayment
  rw [hf]

theorem recordPoints_replay (s : DBState) (t st : Nat) (sub : Subscription)
    (now now2 : Int) :
    recordPointsSubscriptionPayment
        (recordPointsSubscriptionPayment s t st sub now).2 t st sub now2
      = ((recordPointsSubscriptionPayment s t st sub now).1,
         (recordPointsSubscriptionPayment s t st sub now).2) := by
  rcases hf : s.payments.find? (pointsPaymentFor sub.id) with _ | e
  · rw [recordPoints_of_none s t st sub now hf]
    have hpay : (creditTeacherWalletFromPayment
        { s with
          payments := s.payments ++ [mkPointsPayment s.nextPaymentId t st sub now]
          nextPaymentId := s.nextPaymentId + 1 }
        (mkPointsPayment s.nextPaymentId t st sub now)).payments
        = s.payments ++ [mkPointsPayment s.nextPaymentId t st sub now] :=
      (credit_only_teacherLedger _ _).2.2.2.1
    have hf2 : (creditTeacherWalletFromPayment
        { s with
          payments := s.payments ++ [mkPointsPayment s.nextPaymentId t st sub now]
          nextPaymentId := s.nextPaymentId + 1 }
        (mkPointsPayment s.nextPaymentId t st sub now)).payments.find?
          (pointsPaymentFor sub.id)
        = some (mkPointsPayment s.nextPaymentId t st sub now) := by
      rw [hpay, List.find?_append, hf]
      simp [List.find?, pointsPaymentFor_mk]
    rw [recordPoints_of_some _ t st sub now2 hf2]
  · rw [recordPoints_of_some s t st sub now hf, recordPoints_of_some s t st sub now2 hf]

theorem subscribe_ok_replay (s : DBState) (t st : Nat) (m spm now : Int)
    (m2 spm2 now3 : Int) (sub2 : Subscription) (s2 : DBState)
    (hok : subscribeTeacher s t st true m spm now = (.ok sub2, s2)) :
    subscribeTeacher s2 t st true m2 spm2 now3 = (.ok sub2, s2) := by
  unfold subscribeTeacher at hok
  by_cases hst : (st == t) = true
  · rw [if_pos hst] at hok
    cases hok
  · rw [if_neg hst] at hok
    simp only [Bool.not_true, Bool.false_eq_true, if_false] at hok
    have hne : st ≠ t := by simpa using hst
    rcases hact : activeSubscription s t st with _ | e
    · rw [hact] at hok
      rcases hcs : createSubscription s t st m spm true now with ⟨r, s1⟩
      rw [hcs] at hok
      cases r with
      | error e => cases hok
      | ok subx =>
        have h1 : subx = sub2 ∧ (recordPointsSubscriptionPayment s1 t st subx now).2 = s2 := by
          cases hok
          exact ⟨rfl, rfl⟩
        rcases createSubscription_cases s t st m spm true now with
          ⟨e2, hact2, _⟩ | ⟨_, _, s3, heq, _⟩ | ⟨_, s3, heq, hsubs, _⟩
        · rw [hact] at hact2
          cases hact2
        · rw [hcs] at heq
          cases heq
        · rw [hcs] at heq
          have hx : Except.ok (ε := ApiError) subx
              = Except.ok (mkSubRow s.nextSubId t st m spm (calcPointsCost m spm) now
                (now + 30 * m * minutesPerDay)) ∧ s1 = s3 := by
            cases heq
            exact ⟨rfl, rfl⟩
          have hsubx : subx = mkSubRow s.nextSubId t st m spm (calcPointsCost m spm) now
              (now + 30 * m * minutesPerDay) := by
            cases hx.1
            rfl
          have hact3 : activeSubscription s2 t st = some sub2 := by
            unfold activeSubscription
            have hs2subs : s2.subscriptions = s.subscriptions ++ [subx] := by
              rw [← h1.2, recordPoints_subscriptions, hx.2, hsubs, hsubx]
            rw [hs2subs, List.find?_append]
            have hnone : s.subscriptions.find? (activeFor t st) = none := hact
            rw [hnone]
            have hmatch : activeFor t st subx = true := by
              rw [hsubx]
              simp [activeFor, mkSubRow]
            simp [List.find?, hmatch, ← h1.1]
          exact subscribe_existing_noop s2 t st m2 spm2 now3 sub2 hne hact3
    · rw [hact] at hok
      have h1 : e = sub2 ∧ s = s2 := by
        cases hok
        exact ⟨rfl, rfl⟩
      rw [← h1.2]
      rw [h1.1] at hact
      exact subscribe_existing_noop s t st m2 spm2 now3 sub2 hne hact

/-- C10.  Subscribing with points records a paid wallet_points
PaymentTransaction for amount_cents equal to the point cost times 100 and
credits the teacher wallet with the computed teacher share; at most one such
transaction and one such credit are ever created for a subscription, and a
successful subscribe replayed with any parameters returns the same
subscription and leaves the state unchanged. -/
theorem points_subscription_payment_unique (s : DBState) (t st : Nat)
    (sub : Subscription) (now now2 : Int) (m spm now3 m2 spm2 now4 : Int)
    (sub2 : Subscription) (s2 : DBState) :
    (recordPointsSubscriptionPayment
        (recordPointsSubscriptionPayment s t st sub now).2 t st sub now2
      = ((recordPointsSubscriptionPayment s t st sub now).1,
         (recordPointsSubscriptionPayment s t st sub now).2))
    ∧ (s.payments.countP (pointsPaymentFor sub.id) = 0 →
       (recordPointsSubscriptionPayment s t st sub now).1
           = mkPointsPayment s.nextPaymentId t st sub now
       ∧ (recordPointsSubscriptionPayment s t st sub now).2.payments
           = s.payments ++ [mkPointsPayment s.nextPaymentId t st sub now]
       ∧ (recordPointsSubscriptionPayment s t st sub now).2.payments.countP
           (pointsPaymentFor sub.id) = 1
       ∧ (mkPointsPayment s.nextPaymentId t st sub now).provider = "wallet_points"
       ∧ (mkPointsPayment s.nextPaymentId t st sub now).status = "paid"
       ∧ (0 ≤ sub.pointsCost →
          (mkPointsPayment s.nextPaymentId t st sub now).amountCents
            = sub.pointsCost * 100)
       ∧ (0 < (calcTeacherEarningsCents (max sub.pointsCost 0 * 100)).1 →
          s.teacherLedger.countP (tlKey t "credit" "course_payment"
            (some "payment_transaction") (some (toString s.nextPaymentId))) = 0 →
          (recordPointsSubscriptionPayment s t st sub now).2.teacherLedger
            = s.teacherLedger ++ [mkTeacherRow t "credit"
                (calcTeacherEarningsCents (max sub.pointsCost 0 * 100)).1
                "course_payment" (some "payment_transaction")
                (some (toString s.nextPaymentId))
                (some "Teacher earning from student payment")]))
    ∧ (subscribeTeacher s t st true m spm now3 = (.ok sub2, s2) →
       subscribeTeacher s2 t st true m2 spm2 now4 = (.ok sub2, s2)) := by
  refine ⟨recordPoints_replay s t st sub now now2, fun hc => ?_,
    fun hok => subscribe_ok_replay s t st m spm now3 m2 spm2 now4 sub2 s2 hok⟩
  have hf := find?_of_countP_zero hc
  have hshape := recordPoints_of_none s t st sub now hf
  have hpay : (recordPointsSubscriptionPayment s t st sub now).2.payments
      = s.payments ++ [mkPointsPayment s.nextPaymentId t st sub now] := by
    rw [hshape]
    exact (credit_only_teacherLedger _ _).2.2.2.1
  refine ⟨by rw [hshape], hpay, ?_, rfl, rfl, fun hcost => ?_, fun hpos hfresh => ?_⟩
  · rw [hpay, List.countP_append, hc]
    simp [List.countP_cons, pointsPaymentFor_mk]
  · show max sub.pointsCost 0 * 100 = sub.pointsCost * 100
    rw [max_eq_left hcost]
  · rw [hshape]
    show (creditTeacherWalletFromPayment _ (mkPointsPayment s.nextPaymentId t st sub now)).teacherLedger = _
    unfold creditTeacherWalletFromPayment
    dsimp only
    have hE : (mkPointsPayment s.nextPaymentId t st sub now).teacherEarningsCents
        = (calcTeacherEarningsCents (max sub.pointsCost 0 * 100)).1 := rfl
    rw [hE]
    have hmax1 : max (calcTeacherEarningsCents (max sub.pointsCost 0 * 100)).1 0
        = (calcTeacherEarningsCents (max sub.pointsCost 0 * 100)).1 :=
      max_eq_left (by omega)
    rw [hmax1, if_neg (by omega)]
    have ht : (optTruthy (some "payment_transaction")
        && optTruthy (some (toString (mkPointsPayment s.nextPaymentId t st sub now).id)))
        = true := optTruthy_lit_toString (by decide) _
    show (recordTeacherLedgerRows s.teacherLedger t "credit" _ "course_payment"
      (some "payment_transaction")
      (some (toString (mkPointsPayment s.nextPaymentId t st sub now).id))
      (some "Teacher earning from student payment")).2 = _
    rw [recordTeacher_of_none ht (by exact find?_of_countP_zero hfresh), hmax1]
    rfl

/-- Witness for C10: a fresh subscription of 120 points records a 12000-cent
wallet_points payment and an 8400-cent teacher credit exactly once. -/
theorem points_subscription_payment_unique_witness :
    (initState.payments.countP (pointsPaymentFor 0) = 0)
    ∧ (recordPointsSubscriptionPayment initState 1 2 (mkSubRow 0 1 2 3 8 120 0 129600) 0).1
        = mkPointsPayment 0 1 2 (mkSubRow 0 1 2 3 8 120 0 129600) 0
    ∧ (mkPointsPayment 0 1 2 (mkSubRow 0 1 2 3 8 120 0 129600) 0).amountCents = 12000
    ∧ subscribeTeacher (subscribeTeacher initState 1 2 true 3 8 0).2 1 2 true 3 8 9
        = (.ok (mkSubRow 0 1 2 3 8 120 0 129600),
           (subscribeTeacher initState 1 2 true 3 8 0).2) := by
  have h := points_subscription_payment_unique initState 1 2
    (mkSubRow 0 1 2 3 8 120 0 129600) 0 5 3 8 0 3 8 9
    (mkSubRow 0 1 2 3 8 120 0 129600) (subscribeTeacher initState 1 2 true 3 8 0).2
  exact ⟨by decide, (h.2.1 (by decide)).1, by decide, h.2.2 (by decide)⟩

/-! ### Replay of confirm_subscription_checkout on a settled token -/

theorem countP_ne_zero_of_find {l : List α} {p : α → Bool} {e : α}
    (h : l.find? p = some e) : l.countP p ≠ 0 := by
  intro hc
  rw [find?_of_countP_zero hc] at h
  cases h

theorem recordWallet_key_present (rows : List WalletLedgerRow) (sid : Nat)
    (dir : String) (a pd : Int) (src : String) (rt ri n : Option String) :
    ((recordWalletLedgerRows rows sid dir a pd src rt ri n).2).countP
      (wlKey sid dir src rt ri) ≠ 0 := by
  unfold recordWalletLedgerRows
  dsimp only
  split_ifs with ht
  · rcases hf : rows.find? (wlKey sid dir src rt ri) with _ | e
    · dsimp only
      have hx := wlKey_self sid dir src rt ri n (max a 0) pd
      simp only [List.countP_append, List.countP_cons, List.countP_nil, hx,
        eq_self_iff_true, if_true]
      omega
    · dsimp only
      exact countP_ne_zero_of_find hf
  · have hx := wlKey_self sid dir src rt ri n (max a 0) pd
    simp only [List.countP_append, List.countP_cons, List.countP_nil, hx,
      eq_self_iff_true, if_true]
    omega

theorem recordTeacher_key_present (rows : List TeacherLedgerRow) (tid : Nat)
    (dir : String) (a : Int) (src : String) (rt ri n : Option String) :
    ((recordTeacherLedgerRows rows tid dir a src rt ri n).2).countP
      (tlKey tid dir src rt ri) ≠ 0 := by
  unfold recordTeacherLedgerRows
  dsimp only
  split_ifs with ht
  · rcases hf : rows.find? (tlKey tid dir src rt ri) with _ | e
    · dsimp only
      have hx := tlKey_self tid dir src rt ri n (max a 0)
      simp only [List.countP_append, List.countP_cons, List.countP_nil, hx,
        eq_self_iff_true, if_true]
      omega
    · dsimp only
      exact countP_ne_zero_of_find hf
  · have hx := tlKey_self tid dir src rt ri n (max a 0)
    simp only [List.countP_append, List.countP_cons, List.countP_nil, hx,
      eq_self_iff_true, if_true]
    omega

theorem confirmPhase1_ok_facts {row row1 : Payment} {pp : Bool} {cap : Option String}
    {now : Int} {tr : Bool}
    (h : confirmPhase1 row pp cap now = .ok (row1, tr)) :
    row1.status = "paid"
    ∧ ¬(0 < row1.amountCents ∧ row1.teacherEarningsCents = 0
        ∧ row1.platformFeeCents = 0)
    ∧ row1.checkoutToken = row.checkoutToken
    ∧ row1.id = row.id
    ∧ row1.teacherId = row.teacherId
    ∧ row1.studentId = row.studentId
    ∧ row1.amountCents = row.amountCents := by
  unfold confirmPhase1 at h
  by_cases h1 : (row.status != "paid") = true
  · rw [if_pos h1] at h
    by_cases h2 : ((row.provider == "stripe" || row.provider == "paypal") && !pp) = true
    · rw [if_pos h2] at h
      cases h
    · rw [if_neg h2] at h
      dsimp only at h
      cases h
      refine ⟨rfl, ?_, ?_, ?_, ?_, ?_, ?_⟩
      · rintro ⟨ha, he, -⟩
        have ha2 : 0 < row.amountCents := by
          revert ha
          dsimp only
          split <;> exact id
        exact absurd he (calcTeacherEarnings_pos _ ha2).ne'
      all_goals dsimp only
      all_goals (split <;> rfl)
  · rw [if_neg h1] at h
    have hpaid : row.status = "paid" := by
      simpa using h1
    by_cases h2 : 0 < row.amountCents ∧ row.teacherEarningsCents = 0
        ∧ row.platformFeeCents = 0
    · rw [if_pos h2] at h
      dsimp only at h
      cases h
      refine ⟨hpaid, ?_, rfl, rfl, rfl, rfl, rfl⟩
      rintro ⟨ha, he, -⟩
      exact absurd he (calcTeacherEarnings_pos _ ha).ne'
    · rw [if_neg h2] at h
      cases h
      exact ⟨hpaid, h2, rfl, rfl, rfl, rfl, rfl⟩

theorem confirmPhase1_settled {r : Payment} (pp : Bool) (cap : Option String)
    (now : Int) (hpaid : r.status = "paid")
    (hsplit : ¬(0 < r.amountCents ∧ r.teacherEarningsCents = 0
      ∧ r.platformFeeCents = 0)) :
    confirmPhase1 r pp cap now = .ok (r, false) := by
  unfold confirmPhase1
  rw [if_neg (by simp [hpaid]), if_neg hsplit]

theorem credit_pos_teacherLedger (s : DBState) (p : Payment)
    (hpos : 0 < p.teacherEarningsCents) :
    (creditTeacherWalletFromPayment s p).teacherLedger
      = (recordTeacherLedgerRows s.teacherLedger p.teacherId "credit"
          (max p.teacherEarningsCents 0) "course_payment" (some "payment_transaction")
          (some (toString p.id)) (some "Teacher earning from student payment")).2 := by
  unfold creditTeacherWalletFromPayment
  dsimp only
  rw [if_neg (not_le.mpr (lt_of_lt_of_le hpos (le_max_left _ _)))]
  rfl

theorem confirm_settled_noop (s : DBState) (token : String) (pp : Bool)
    (cap : Option String) (now : Int) (row : Payment) (sub : Subscription)
    (hfind : s.payments.find? (fun p => p.checkoutToken == token) = some row)
    (hpaid : row.status = "paid")
    (hsplit : ¬(0 < row.amountCents ∧ row.teacherEarningsCents = 0
      ∧ row.platformFeeCents = 0))
    (hcredit : 0 < row.teacherEarningsCents →
      s.teacherLedger.countP (tlKey row.teacherId "credit" "course_payment"
        (some "payment_transaction") (some (toString row.id))) ≠ 0)
    (hact : activeSubscription s row.teacherId row.studentId = some sub)
    (hsubid : row.subscriptionId = some sub.id)
    (hwallet : s.walletLedger.countP (wlKey row.studentId "debit"
      "subscription_checkout" (some "payment_transaction")
      (some (toString row.id))) ≠ 0) :
    confirmSubscriptionCheckout s token true pp cap now = (.ok sub, s) := by
  have hb : (row.status == "paid") = true := by simp [hpaid]
  have hb2 : ((false || (row.status == "paid")) = true) := by
    rw [Bool.false_or]
    exact hb
  have hrow2 : ({ row with subscriptionId := some sub.id } : Payment) = row := by
    rw [← hsubid]
  have hcredit_noop : creditTeacherWalletFromPayment s row = s := by
    unfold creditTeacherWalletFromPayment
    dsimp only
    rcases le_or_lt row.teacherEarningsCents 0 with hle | hpos
    · rw [if_pos (by rw [max_eq_right hle])]
    · rw [if_neg (not_le.mpr (lt_of_lt_of_le hpos (le_max_left _ _)))]
      unfold recordTeacherLedger
      dsimp only
      rw [recordTeacher_hit_noop (optTruthy_lit_toString (by decide) row.id)
        (hcredit hpos)]
  have hcs : createSubscription s row.teacherId row.studentId row.months
      row.sessionsPerMonth false now = (.ok sub, s) := by
    unfold createSubscription
    rw [hact]
  unfold confirmSubscriptionCheckout
  rw [hfind]
  dsimp only
  simp only [Bool.not_true, Bool.false_eq_true, if_false]
  rw [confirmPhase1_settled pp cap now hpaid hsplit]
  dsimp only
  rw [updateFirst_self hfind]
  rw [show ({ s with payments := s.payments } : DBState) = s from rfl]
  rw [if_pos hb]
  rw [hcredit_noop]
  rw [hcs]
  dsimp only
  rw [hrow2]
  rw [updateFirst_self hfind]
  rw [show ({ s with payments := s.payments } : DBState) = s from rfl]
  rw [if_pos hb2]
  unfold recordWalletLedger
  dsimp only
  rw [recordWallet_hit_noop (optTruthy_lit_toString (by decide) row.id) hwallet]

theorem confirm_replay_of_facts (s3 : DBState) (token : String) (pp2 : Bool)
    (cap2 : Option String) (now2 : Int) (row row1 : Payment) (sub : Subscription)
    (hfind3 : s3.payments.find? (fun p => p.checkoutToken == token) = some row1)
    (hp1 : (row1.checkoutToken == token) = true)
    (hpaid1 : row1.status = "paid")
    (hsplit1 : ¬(0 < row1.amountCents ∧ row1.teacherEarningsCents = 0
      ∧ row1.platformFeeCents = 0))
    (hsid1 : row1.studentId = row.studentId)
    (hact1 : activeSubscription s3 row1.teacherId row1.studentId = some sub)
    (hcredit3 : 0 < row1.teacherEarningsCents →
      s3.teacherLedger.countP (tlKey row1.teacherId "credit" "course_payment"
        (some "payment_transaction") (some (toString row1.id))) ≠ 0) :
    confirmSubscriptionCheckout
        ((recordWalletLedger
          { s3 with payments := (updateFirst (fun p => p.checkoutToken == token)
              (fun _ => { row1 with subscriptionId := some sub.id }) s3.payments) }
          row.studentId "debit" (max row.amountCents 0) 0 "subscription_checkout"
          (some "payment_transaction") (some (toString row1.id))
          (some "Checkout payment to teacher")).2)
        token true pp2 cap2 now2
      = (.ok sub,
         (recordWalletLedger
          { s3 with payments := (updateFirst (fun p => p.checkoutToken == token)
              (fun _ => { row1 with subscriptionId := some sub.id }) s3.payments) }
          row.studentId "debit" (max row.amountCents 0) 0 "subscription_checkout"
          (some "payment_transaction") (some (toString row1.id))
          (some "Checkout payment to teacher")).2)
    ∧ ∃ r2, ((recordWalletLedger
          { s3 with payments := (updateFirst (fun p => p.checkoutToken == token)
              (fun _ => { row1 with subscriptionId := some sub.id }) s3.payments) }
          row.studentId "debit" (max row.amountCents 0) 0 "subscription_checkout"
          (some "payment_transaction") (some (toString row1.id))
          (some "Checkout payment to teacher")).2).payments.find?
            (fun p => p.checkoutToken == token) = some r2
        ∧ r2.status = "paid" := by
  have hfindE : (updateFirst (fun p => p.checkoutToken == token)
      (fun _ => ({ row1 with subscriptionId := some sub.id } : Payment))
      s3.payments).find? (fun p => p.checkoutToken == token)
      = some { row1 with subscriptionId := some sub.id } :=
    find?_updateFirst hfind3 (by exact hp1)
  refine ⟨confirm_settled_noop _ token pp2 cap2 now2
    ({ row1 with subscriptionId := some sub.id }) sub ?_ ?_ ?_ ?_ ?_ ?_ ?_,
    ⟨{ row1 with subscriptionId := some sub.id }, ?_, ?_⟩⟩
  · exact hfindE
  · exact hpaid1
  · exact hsplit1
  · intro hpos
    exact hcredit3 hpos
  · exact hact1
  · rfl
  · show ((recordWalletLedgerRows s3.walletLedger row.studentId "debit"
      (max row.amountCents 0) 0 "subscription_checkout" (some "payment_transaction")
      (some (toString row1.id)) (some "Checkout payment to teacher")).2).countP
        (wlKey row1.studentId "debit" "subscription_checkout"
          (some "payment_transaction") (some (toString row1.id))) ≠ 0
    rw [hsid1]
    exact recordWallet_key_present _ _ _ _ _ _ _ _ _
  · exact hfindE
  · exact hpaid1

/-- C2.  Confirming a checkout token that has already been driven to paid is
idempotent: a second confirm call with the same token (with any provider
answer and capture id) returns the same subscription and leaves the whole
state unchanged — in particular no second teacher-wallet credit row and no
second student-wallet debit row is written — and the transaction found under
the token is still paid. -/
theorem confirm_checkout_paid_replay (s : DBState) (token : String)
    (pp pp2 : Bool) (cap cap2 : Option String) (now now2 : Int)
    (sub : Subscription) (s5 : DBState)
    (hok : confirmSubscriptionCheckout s token true pp cap now = (.ok sub, s5)) :
    confirmSubscriptionCheckout s5 token true pp2 cap2 now2 = (.ok sub, s5)
    ∧ ∃ r2, s5.payments.find? (fun p => p.checkoutToken == token) = some r2
        ∧ r2.status = "paid" := by
  unfold confirmSubscriptionCheckout at hok
  rcases hfind : s.payments.find? (fun p => p.checkoutToken == token) with _ | row <;>
    rw [hfind] at hok
  · cases hok
  · simp only [Bool.not_true, Bool.false_eq_true, if_false] at hok
    rcases hph : confirmPhase1 row pp cap now with e | ⟨row1, tr⟩ <;> rw [hph] at hok
    · cases hok
    · obtain ⟨hpaid1, hsplit1, htok1, hid1, htid1, hsid1, hamt1⟩ :=
        confirmPhase1_ok_facts hph
      dsimp only at hok
      have hb1 : (row1.status == "paid") = true := by simp [hpaid1]
      simp only [hb1, Bool.or_true, eq_self_iff_true, if_true] at hok
      have hp0 : (fun p => p.checkoutToken == token) row = true :=
        List.find?_some (p := fun q : Payment => q.checkoutToken == token) hfind
      have hp1 : (row1.checkoutToken == token) = true := by
        rw [htok1]
        exact hp0
      have hf1 : (updateFirst (fun p => p.checkoutToken == token) (fun _ => row1)
          s.payments).find? (fun p => p.checkoutToken == token) = some row1 :=
        find?_updateFirst hfind (by exact hp1)
      have hfindS2 : (creditTeacherWalletFromPayment
          { s with payments := (updateFirst (fun p => p.checkoutToken == token)
              (fun _ => row1) s.payments) } row1).payments.find?
            (fun p => p.checkoutToken == token) = some row1 := by
        rw [(credit_only_teacherLedger _ _).2.2.2.1]
        exact hf1
      have hcreditS2 : 0 < row1.teacherEarningsCents →
          (creditTeacherWalletFromPayment
            { s with payments := (updateFirst (fun p => p.checkoutToken == token)
                (fun _ => row1) s.payments) } row1).teacherLedger.countP
              (tlKey row1.teacherId "credit" "course_payment"
                (some "payment_transaction") (some (toString row1.id))) ≠ 0 := by
        intro hpos
        rw [credit_pos_teacherLedger _ _ hpos]
        exact recordTeacher_key_present _ _ _ _ _ _ _ _
      split at hok
      next e s3 heq => cases hok
      next sub0 s3 heq =>
        injection hok with hok1 hok2
        injection hok1 with hok1
        rw [← hok1, ← hok2]
        rcases createSubscription_cases (creditTeacherWalletFromPayment
            { s with payments := (updateFirst (fun p => p.checkoutToken == token)
                (fun _ => row1) s.payments) } row1)
            row.teacherId row.studentId row.months row.sessionsPerMonth false now with
          ⟨e0, hact0, heq0⟩ | ⟨_, hcb, _⟩ | ⟨hact0, s3x, heq0, hsubs0, htl0, hpay0, _, _, _⟩
        · have hcomb := heq0.symm.trans heq
          injection hcomb with hc1 hc2
          injection hc1 with hc1
          subst hc1
          subst hc2
          refine confirm_replay_of_facts _ token pp2 cap2 now2 row row1 _ hfindS2 hp1
            hpaid1 hsplit1 hsid1 ?_ hcreditS2
          rw [htid1, hsid1]
          exact hact0
        · cases hcb
        · have hcomb := heq0.symm.trans heq
          injection hcomb with hc1 hc2
          injection hc1 with hc1
          subst hc2
          refine confirm_replay_of_facts _ token pp2 cap2 now2 row row1 sub0 ?_ hp1
            hpaid1 hsplit1 hsid1 ?_ ?_
          · rw [hpay0]
            exact hfindS2
          · unfold activeSubscription
            rw [htid1, hsid1, hsubs0, List.find?_append]
            have hnone : (creditTeacherWalletFromPayment
                { s with payments := (updateFirst (fun p => p.checkoutToken == token)
                    (fun _ => row1) s.payments) } row1).subscriptions.find?
                  (activeFor row.teacherId row.studentId) = none := hact0
            rw [hnone]
            have hmatch : activeFor row.teacherId row.studentId (mkSubRow
                (creditTeacherWalletFromPayment
                  { s with payments := (updateFirst (fun p => p.checkoutToken == token)
                      (fun _ => row1) s.payments) } row1).nextSubId row.teacherId
                row.studentId row.months row.sessionsPerMonth
                (calcPointsCost row.months row.sessionsPerMonth) now
                (now + 30 * row.months * minutesPerDay)) = true := by
              simp [activeFor, mkSubRow]
            rw [hc1] at hmatch ⊢
            simp [List.find?, hmatch]
          · intro hpos
            rw [htl0]
            exact hcreditS2 hpos

/-- Witness for C2: a pending 12000-cent stripe checkout confirmed to paid,
then confirmed again (even with a negative provider answer), returns the same
subscription and the identical state. -/
theorem confirm_checkout_paid_replay_witness :
    confirmSubscriptionCheckout
        (confirmSubscriptionCheckout confirmDemoState "tok1" true true none 0).2
        "tok1" true false none 99
      = (.ok (mkSubRow 0 1 2 1 2 10 0 43200),
         (confirmSubscriptionCheckout confirmDemoState "tok1" true true none 0).2) :=
  (confirm_checkout_paid_replay confirmDemoState "tok1" true false none none 0 99
    (mkSubRow 0 1 2 1 2 10 0 43200)
    (confirmSubscriptionCheckout confirmDemoState "tok1" true true none 0).2
    (by decide)).1

/-! ### Terminal withdrawals and the reversal credit -/

theorem withdrawUpdate_invalid_shape (s : DBState) (tid wid : Nat) (adm : Bool)
    (ns : String) (an er : Option String) (pc ok2 : Bool) (ref : String) (now : Int)
    (row : Withdrawal)
    (hfind : s.withdrawals.find? (fun w => w.id == wid && w.teacherId == tid)
      = some row)
    (h : withdrawAllowedStatuses.contains ns = false) :
    updateTeacherWithdrawal s tid wid adm ns an er pc ok2 ref now
      = (.error .invalidStatus, s) := by
  unfold updateTeacherWithdrawal
  rw [hfind]
  dsimp only
  rw [if_pos (by simp only [h, Bool.not_false])]

theorem withdrawUpdate_teacherOnly_shape (s : DBState) (tid wid : Nat)
    (ns : String) (an er : Option String) (pc ok2 : Bool) (ref : String) (now : Int)
    (row : Withdrawal)
    (hfind : s.withdrawals.find? (fun w => w.id == wid && w.teacherId == tid)
      = some row)
    (h1 : withdrawAllowedStatuses.contains ns = true)
    (h2 : (ns != "cancelled") = true) :
    updateTeacherWithdrawal s tid wid false ns an er pc ok2 ref now
      = (.error .teacherOnlyCancel, s) := by
  unfold updateTeacherWithdrawal
  rw [hfind]
  dsimp only
  rw [if_neg (by simp only [h1, Bool.not_true]; decide),
    if_pos (by simp only [Bool.not_false, Bool.true_and, h2])]

theorem withdrawUpdate_nonadmin_pending_shape (s : DBState) (tid wid : Nat)
    (an er : Option String) (pc ok2 : Bool) (ref : String) (now : Int)
    (row : Withdrawal)
    (hfind : s.withdrawals.find? (fun w => w.id == wid && w.teacherId == tid)
      = some row)
    (hnp : (row.status != "pending") = true) :
    updateTeacherWithdrawal s tid wid false "cancelled" an er pc ok2 ref now
      = (.error .onlyPendingCancellable, s) := by
  unfold updateTeacherWithdrawal
  rw [hfind]
  dsimp only
  rw [if_neg (by decide), if_neg (by decide), if_pos (by simp [hnp])]

theorem withdrawUpdate_admin_terminal_shape (s : DBState) (tid wid : Nat)
    (ns : String) (an er : Option String) (pc ok2 : Bool) (ref : String) (now : Int)
    (row : Withdrawal)
    (hfind : s.withdrawals.find? (fun w => w.id == wid && w.teacherId == tid)
      = some row)
    (h1 : withdrawAllowedStatuses.contains ns = true)
    (h4 : ((row.status == "paid" || row.status == "rejected"
        || row.status == "cancelled") && (ns != row.status)) = true) :
    updateTeacherWithdrawal s tid wid true ns an er pc ok2 ref now
      = (.error .alreadyFinalized, s) := by
  unfold updateTeacherWithdrawal
  rw [hfind]
  dsimp only
  rw [if_neg (by simp only [h1, Bool.not_true]; decide), if_neg (by simp),
    if_neg (by simp), if_pos h4]

theorem withdrawUpdate_reversal_facts (s : DBState) (tid wid : Nat) (adm : Bool)
    (ns : String) (an er : Option String) (pc ok2 : Bool) (ref : String) (now : Int)
    (row : Withdrawal)
    (hfind : s.withdrawals.find? (fun w => w.id == wid && w.teacherId == tid)
      = some row)
    (h1 : withdrawAllowedStatuses.contains ns = true)
    (h2 : (!adm && (ns != "cancelled")) = false)
    (h3 : (!adm && (row.status != "pending")) = false)
    (h4 : ((row.status == "paid" || row.status == "rejected"
        || row.status == "cancelled") && (ns != row.status)) = false)
    (h5 : (ns == "paid") = false)
    (h6 : ((ns == "rejected" || ns == "cancelled")
        && (row.status == "pending" || row.status == "processing")) = true) :
    (updateTeacherWithdrawal s tid wid adm ns an er pc ok2 ref now).2.teacherLedger
      = (recordTeacherLedgerRows s.teacherLedger tid "credit" row.amountCents
          "withdraw_request_reversal" (some "withdrawal_request_reversal")
          (some (toString row.id))
          (some ("Withdrawal " ++ toString row.id ++ " reversed"))).2
    ∧ ∃ r, (updateTeacherWithdrawal s tid wid adm ns an er pc ok2 ref now).1
        = .ok r ∧ r.status = ns := by
  unfold updateTeacherWithdrawal
  rw [hfind]
  dsimp only
  rw [if_neg (by simp only [h1, Bool.not_true]; decide),
    if_neg (by simp only [h2]; decide), if_neg (by simp only [h3]; decide),
    if_neg (by simp only [h4]; decide)]
  simp only [h5, Bool.false_and, Bool.false_eq_true, if_false]
  rw [if_pos h6]
  exact ⟨rfl, _, rfl, rfl⟩

/-- Counterexample to C8 as stated: a teacher (non-admin) attempt to cancel a
paid (terminal) withdrawal request fails with the only-pending-cancellable
error, not AlreadyFinalized — the terminal-status check runs only after the
non-admin role checks (education.py 1313-1321). -/
theorem withdrawal_terminal_nonadmin_cex :
    updateTeacherWithdrawal withdrawDemoState 1 0 false "cancelled" none none
        false false "" 5
      = (.error .onlyPendingCancellable, withdrawDemoState)
    ∧ (Except.error (α := Withdrawal) ApiError.onlyPendingCancellable
        ≠ .error .alreadyFinalized) := by
  refine ⟨by decide, by decide⟩

/-- C8 (amended).  For a withdrawal request found for (teacher, id):
(a) if its status is terminal (paid, rejected or cancelled) and a different
status is requested, the update fails and the state is unchanged; the error
is AlreadyFinalized when the caller is an admin requesting a valid status,
but a non-admin (teacher) cancel attempt fails with the
only-pending-cancellable error instead; (b) a transition to rejected or
cancelled from pending or processing (admin, or teacher cancelling a pending
request) succeeds and runs the withdraw_request_reversal credit of the
request's amount through the idempotency-keyed recorder, so with no prior
reversal row the ledger gains exactly one reversal credit row. -/
theorem withdrawal_terminal_and_reversal (s : DBState) (tid wid : Nat)
    (adm : Bool) (ns : String) (an er : Option String) (pc ok2 : Bool)
    (ref : String) (now : Int) (row : Withdrawal)
    (hfind : s.withdrawals.find? (fun w => w.id == wid && w.teacherId == tid)
      = some row) :
    ((row.status = "paid" ∨ row.status = "rejected" ∨ row.status = "cancelled") →
      ns ≠ row.status →
      (∃ e, updateTeacherWithdrawal s tid wid adm ns an er pc ok2 ref now
          = (.error e, s))
      ∧ (adm = true → withdrawAllowedStatuses.contains ns = true →
          updateTeacherWithdrawal s tid wid adm ns an er pc ok2 ref now
            = (.error .alreadyFinalized, s))
      ∧ (adm = false → ns = "cancelled" →
          updateTeacherWithdrawal s tid wid adm ns an er pc ok2 ref now
            = (.error .onlyPendingCancellable, s)))
    ∧ ((ns = "rejected" ∨ ns = "cancelled") →
       (row.status = "pending" ∨ row.status = "processing") →
       (adm = true ∨ (ns = "cancelled" ∧ row.status = "pending")) →
       (updateTeacherWithdrawal s tid wid adm ns an er pc ok2 ref now).2.teacherLedger
         = (recordTeacherLedgerRows s.teacherLedger tid "credit" row.amountCents
             "withdraw_request_reversal" (some "withdrawal_request_reversal")
             (some (toString row.id))
             (some ("Withdrawal " ++ toString row.id ++ " reversed"))).2
       ∧ (∃ r, (updateTeacherWithdrawal s tid wid adm ns an er pc ok2 ref now).1
             = .ok r ∧ r.status = ns)
       ∧ (s.teacherLedger.countP (tlKey tid "credit" "withdraw_request_reversal"
            (some "withdrawal_request_reversal") (some (toString row.id))) = 0 →
          (updateTeacherWithdrawal s tid wid adm ns an er pc ok2 ref
            now).2.teacherLedger
            = s.teacherLedger ++ [mkTeacherRow tid "credit" (max row.amountCents 0)
                "withdraw_request_reversal" (some "withdrawal_request_reversal")
                (some (toString row.id))
                (some ("Withdrawal " ++ toString row.id ++ " reversed"))]
          ∧ (updateTeacherWithdrawal s tid wid adm ns an er pc ok2 ref
              now).2.teacherLedger.countP
                (tlKey tid "credit" "withdraw_request_reversal"
                  (some "withdrawal_request_reversal")
                  (some (toString row.id))) = 1)) := by
  constructor
  · intro hterm hne
    have hnp : (row.status != "pending") = true := by
      rcases hterm with h | h | h <;> simp [h]
    have hneb : (ns != row.status) = true := bne_iff_ne.mpr hne
    have h4 : ((row.status == "paid" || row.status == "rejected"
        || row.status == "cancelled") && (ns != row.status)) = true := by
      have h7 : (row.status == "paid" || row.status == "rejected"
          || row.status == "cancelled") = true := by
        rcases hterm with h | h | h <;> simp [h]
      rw [h7, Bool.true_and, hneb]
    refine ⟨?_, ?_, ?_⟩
    · by_cases h1 : withdrawAllowedStatuses.contains ns = true
      · cases adm with
        | true =>
          exact ⟨.alreadyFinalized,
            withdrawUpdate_admin_terminal_shape s tid wid ns an er pc ok2 ref now
              row hfind h1 h4⟩
        | false =>
          by_cases hcan : ns = "cancelled"
          · subst hcan
            exact ⟨.onlyPendingCancellable,
              withdrawUpdate_nonadmin_pending_shape s tid wid an er pc ok2 ref now
                row hfind hnp⟩
          · exact ⟨.teacherOnlyCancel,
              withdrawUpdate_teacherOnly_shape s tid wid ns an er pc ok2 ref now
                row hfind h1 (bne_iff_ne.mpr hcan)⟩
      · exact ⟨.invalidStatus,
          withdrawUpdate_invalid_shape s tid wid adm ns an er pc ok2 ref now
            row hfind (by simpa using h1)⟩
    · intro hadm h1
      subst hadm
      exact withdrawUpdate_admin_terminal_shape s tid wid ns an er pc ok2 ref now
        row hfind h1 h4
    · intro hadm hcan
      subst hadm
      subst hcan
      exact withdrawUpdate_nonadmin_pending_shape s tid wid an er pc ok2 ref now
        row hfind hnp
  · intro hns hstat hrole
    have h1 : withdrawAllowedStatuses.contains ns = true := by
      rcases hns with h | h <;> rw [h] <;> decide
    have h5 : (ns == "paid") = false := by
      rcases hns with h | h <;> rw [h] <;> decide
    have h2 : (!adm && (ns != "cancelled")) = false := by
      rcases hrole with h | ⟨hc, hp⟩
      · simp [h]
      · simp [hc]
    have h3 : (!adm && (row.status != "pending")) = false := by
      rcases hrole with h | ⟨hc, hp⟩
      · simp [h]
      · simp [hp]
    have h4 : ((row.status == "paid" || row.status == "rejected"
        || row.status == "cancelled") && (ns != row.status)) = false := by
      rcases hstat with h | h <;> simp [h]
    have h6 : ((ns == "rejected" || ns == "cancelled")
        && (row.status == "pending" || row.status == "processing")) = true := by
      rcases hns with h | h <;> rcases hstat with h2 | h2 <;> simp [h, h2]
    obtain ⟨hTL, hr⟩ := withdrawUpdate_reversal_facts s tid wid adm ns an er pc ok2
      ref now row hfind h1 h2 h3 h4 h5 h6
    have ht : (optTruthy (some "withdrawal_request_reversal")
        && optTruthy (some (toString row.id))) = true :=
      optTruthy_lit_toString (by decide) row.id
    refine ⟨hTL, hr, fun hc0 => ?_⟩
    have hshape := recordTeacher_of_none (a := row.amountCents)
      (n := some ("Withdrawal " ++ toString row.id ++ " reversed")) ht
      (find?_of_countP_zero hc0)
    rw [hTL, hshape]
    refine ⟨rfl, ?_⟩
    have hx := tlKey_self tid "credit" "withdraw_request_reversal"
      (some "withdrawal_request_reversal") (some (toString row.id))
      (some ("Withdrawal " ++ toString row.id ++ " reversed")) (max row.amountCents 0)
    simp only [List.countP_append, List.countP_cons, List.countP_nil, hx,
      eq_self_iff_true, if_true, hc0]

/-- Witness for C8: an admin attempt to move a paid request to processing
fails AlreadyFinalized with the state unchanged, and a teacher cancelling a
pending request books exactly one reversal credit. -/
theorem withdrawal_terminal_and_reversal_witness :
    updateTeacherWithdrawal withdrawDemoState 1 0 true "processing" none none
        false false "" 5
      = (.error .alreadyFinalized, withdrawDemoState)
    ∧ (updateTeacherWithdrawal withdrawPendingState 1 0 false "cancelled" none none
        false false "" 5).2.teacherLedger.countP
          (tlKey 1 "credit" "withdraw_request_reversal"
            (some "withdrawal_request_reversal")
            (some (toString withdrawPendingRow.id))) = 1 := by
  have h1 := withdrawal_terminal_and_reversal withdrawDemoState 1 0 true "processing"
    none none false false "" 5 withdrawDemoRow (by decide)
  have h2 := withdrawal_terminal_and_reversal withdrawPendingState 1 0 false
    "cancelled" none none false false "" 5 withdrawPendingRow (by decide)
  refine ⟨(h1.1 (Or.inl (by decide)) (by decide)).2.1 rfl (by decide), ?_⟩
  exact ((h2.2 (Or.inr rfl) (Or.inl (by decide))
    (Or.inr ⟨rfl, by decide⟩)).2.2 (by decide)).2

end HomeBook
